import Mathlib

/-!
# Mini-WAV-Player: the streaming playback engine and the codec volume encoder

A shallow embedding of `Core/Src/cs43l22.c`, `Core/Src/wav_player.c` and the song index
handling of `Core/Src/main.c`.

* Machine integers are natural numbers; `uint8_t` arithmetic is reduced modulo 256 and
  `uint32_t` arithmetic modulo 2^32 at the places where the C code computes.
* The static variables of `wav_player.c` are the fields of `Player`.
* The collaborators that live outside the repository (FatFs, the ST HAL, the codec behind the
  I2C bus) are modelled by their documented contracts: a file is a byte list with a read
  pointer, the transport is a three-valued DMA state, the codec is the log of register writes.
* `wavPlayer_reset` points `i2sptr` at `hi2s3` and `main` calls it before any other player
  function; the transport fields of `Player` are therefore those of `hi2s3`.
-/

namespace WavPlayer

/-! ## cs43l22.c -/

def POWER_CONTROL1 : Nat := 0x02
def POWER_CONTROL2 : Nat := 0x04
def MISCELLANEOUS_CONTRLS : Nat := 0x0E
def CONFIG_00 : Nat := 0x00
def CONFIG_47 : Nat := 0x47
def CONFIG_32 : Nat := 0x32
def HEADPHONE_A_VOL : Nat := 0x22
def HEADPHONE_B_VOL : Nat := 0x23

/-- The codec as seen from the I2C master: every (register, data) pair transmitted by
`CS43_write_register`, oldest first. -/
abbrev Codec := List (Nat × Nat)

/-- Source `CS43_write_register`: one two-byte master transmission. -/
def CS43_write_register (reg data : Nat) (c : Codec) : Codec :=
  c ++ [(reg, data)]

/-- Source `CS43_read_register`: the byte the codec answers for `reg`; the model answers the
value last written to that register, and 0 when it was never written. -/
def CS43_read_register (reg : Nat) (c : Codec) : Nat :=
  match c.reverse.find? (fun w => w.1 == reg) with
  | some w => w.2
  | none => 0

/-- Lines 225-230 of `CS43_set_volume`: the value of the `uint8_t` local `volume` after the
boundary check. Both assignments are 8-bit assignments, hence the reduction modulo 256. -/
def CS43_set_volume_code (volume : Nat) : Nat :=
  if 231 ≤ volume ∧ volume < 256 then (volume - 231) % 256 else (volume + 25) % 256

/-- Source `CS43_set_volume`: the encoded value goes to both headphone volume registers. -/
def CS43_set_volume (volume : Nat) (c : Codec) : Codec :=
  let volume := CS43_set_volume_code volume
  CS43_write_register HEADPHONE_B_VOL volume (CS43_write_register HEADPHONE_A_VOL volume c)

/-- Source `CS43_start`. -/
def CS43_start (c : Codec) : Codec :=
  let c := CS43_write_register POWER_CONTROL2 0xFF c
  let c := CS43_write_register HEADPHONE_A_VOL 0x00 c
  let c := CS43_write_register HEADPHONE_B_VOL 0x00 c
  let c := CS43_write_register POWER_CONTROL2 0xAF c
  let c := CS43_write_register CONFIG_00 0x99 c
  let c := CS43_write_register CONFIG_47 0x80 c
  let data := CS43_read_register CONFIG_32 c
  let data := data ||| 0x80
  let c := CS43_write_register CONFIG_32 data c
  let data := CS43_read_register CONFIG_32 c
  let data := data &&& 0x7F
  let c := CS43_write_register CONFIG_32 data c
  let c := CS43_write_register CONFIG_00 0x00 c
  CS43_write_register POWER_CONTROL1 0x9E c

/-- Source `CS43_stop`. -/
def CS43_stop (c : Codec) : Codec :=
  let c := CS43_write_register POWER_CONTROL2 0xFF c
  let c := CS43_write_register HEADPHONE_A_VOL 0x01 c
  let c := CS43_write_register HEADPHONE_B_VOL 0x01 c
  let c := CS43_write_register MISCELLANEOUS_CONTRLS 0x04 c
  CS43_write_register POWER_CONTROL1 0x9F c

/-! ## wav_player.c: data -/

def AUDIO_BUFFER_SIZE : Nat := 4096
def DMA_MAX_SZE : Nat := 0xFFFF
def AUDIO_DATA_SIZE : Nat := 2
def PLLI2S_VCO_MUL_FACTOR : Nat := 258
def PLLI2S_CLK_DIV_FACTOR : Nat := 3

/-- Source macro `DMA_MAX`. -/
def DMA_MAX (x : Nat) : Nat := if x ≤ DMA_MAX_SZE then x else DMA_MAX_SZE

/-- Size in bytes of `WAV_HeaderTypeDef` (five 32-bit and two 16-bit fields, then three 32-bit,
two 16-bit and two 32-bit fields, naturally aligned without padding). -/
def WAV_HEADER_SIZE : Nat := 44

def I2SFreq : List Nat := [8000, 11025, 16000, 22050, 32000, 44100, 48000, 96000]
def I2SPLLN : List Nat := [256, 429, 213, 429, 426, 271, 258, 344]
def I2SPLLR : List Nat := [5, 4, 4, 4, 4, 6, 3, 1]

/-- Source enum `PLAYER_CONTROL_e`. -/
inductive PLAYER_CONTROL_e
  | PLAYER_CONTROL_Idle
  | PLAYER_CONTROL_HalfBuffer
  | PLAYER_CONTROL_FullBuffer
  | PLAYER_CONTROL_EndOfFile
  deriving DecidableEq, Repr

open PLAYER_CONTROL_e

/-- The peripheral an I2S handle belongs to (`hi2s->Instance`). -/
inductive SPI_Instance
  | SPI1
  | SPI2
  | SPI3
  deriving DecidableEq, Repr

/-- An open FatFs file object: the bytes of the file and the read pointer. -/
structure FIL where
  data : List Nat
  fptr : Nat
  deriving DecidableEq, Repr

/-- The state of the I2S transmit DMA stream. -/
inductive DmaState
  | stopped
  | running
  | paused
  deriving DecidableEq, Repr

/-- One storage read into `audioBuffer`, kept as history: the buffer offset of the destination,
the byte count asked for and the bytes delivered. -/
structure Fill where
  offset : Nat
  requested : Nat
  bytes : List Nat
  deriving DecidableEq, Repr

/-- The static variables of `wav_player.c`, the transport they drive, and the fill history.
`wavFile = none` is a file object that is not open (never opened, closed, or a failed open).
`audioBuffer` maps a byte offset to the byte stored there; the C array has the offsets below
`AUDIO_BUFFER_SIZE`. `fills` is a history variable: the code never reads it. -/
structure Player where
  wavFile : Option FIL
  fileLength : Nat
  audioBuffer : Nat → Nat
  audioRemainSize : Nat
  samplingFreq : Nat
  player_bytes_read : Nat
  is_song_finished : Bool
  playerControlSM : PLAYER_CONTROL_e
  codec : Codec
  plli2sN : Nat
  plli2sR : Nat
  i2sEnabled : Bool
  i2sAudioFreq : Nat
  dma : DmaState
  dmaLen : Nat
  fills : List Fill

/-! ## The consumed interfaces -/

/-- A disk: the bytes of the file stored under a path, `none` where `f_open` does not
return `FR_OK`. -/
abbrev Disk := String → Option (List Nat)

/-- FatFs `f_open` with `FA_READ`: on success the file object is open at offset 0, on failure
the file object is invalidated. The result is `true` for `FR_OK`. -/
def f_open (disk : Disk) (path : String) : Option FIL × Bool :=
  match disk path with
  | some bytes => (some { data := bytes, fptr := 0 }, true)
  | none => (none, false)

/-- FatFs `f_read`: delivers the bytes from the read pointer on, as many as asked for or as
many as the file still has, and advances the read pointer by that count; on a file object
that is not open it delivers nothing. The result is the file object and the bytes. -/
def f_read (fp : Option FIL) (btr : Nat) : Option FIL × List Nat :=
  match fp with
  | some f =>
    let chunk := (f.data.drop f.fptr).take btr
    (some { f with fptr := f.fptr + chunk.length }, chunk)
  | none => (none, [])

/-- FatFs `f_lseek`: moves the read pointer, clamped to the file size in read mode. -/
def f_lseek (fp : Option FIL) (ofs : Nat) : Option FIL :=
  match fp with
  | some f => some { f with fptr := min ofs f.data.length }
  | none => none

/-- FatFs `f_close`: the file object is no longer open. -/
def f_close (_fp : Option FIL) : Option FIL := none

/-- The memory at `buff` after a read stored `chunk` at byte offset `off`. -/
def store (buff : Nat → Nat) (off : Nat) (chunk : List Nat) : Nat → Nat :=
  fun i => if off ≤ i ∧ i < off + chunk.length then chunk.getD (i - off) 0 else buff i

/-- A little-endian 32-bit field of a byte region. -/
def le32 (mem : Nat → Nat) (off : Nat) : Nat :=
  mem off % 256 + 256 * (mem (off + 1) % 256) + 65536 * (mem (off + 2) % 256)
    + 16777216 * (mem (off + 3) % 256)

/-- Subtraction of `uint32_t` values. -/
def sub32 (a b : Nat) : Nat := (a % 4294967296 + 4294967296 - b % 4294967296) % 4294967296

/-! ## wav_player.c: local helpers -/

/-- Source `get_I2S_freq_index`: the loop over the eight table entries keeps the last index
whose frequency matches, starting from 0xFF. -/
def get_I2S_freq_index (audioFreq : Nat) : Nat :=
  (List.range 8).foldl
    (fun freq_index i => if I2SFreq.getD i 0 = audioFreq then i else freq_index) 0xFF

/-- Source `audio_clock_config`: the default PLLI2S factors, replaced by the table entry on
a sampling frequency match. -/
def audio_clock_config (audioFreq : Nat) (s : Player) : Player :=
  let freqindex := get_I2S_freq_index audioFreq
  let s := { s with plli2sN := PLLI2S_VCO_MUL_FACTOR, plli2sR := PLLI2S_CLK_DIV_FACTOR }
  if freqindex ≠ 0xFF then
    { s with plli2sN := I2SPLLN.getD freqindex 0, plli2sR := I2SPLLR.getD freqindex 0 }
  else s

/-- Source `audio_adjust_freq`: disables the I2S block, stores the sampling frequency and
re-initialises the peripheral. `initOk` is whether `HAL_I2S_Init` returned `HAL_OK`. -/
def audio_adjust_freq (_audioFreq : Nat) (initOk : Bool) (s : Player) : Bool × Player :=
  let s := { s with i2sEnabled := false }
  let s := { s with i2sAudioFreq := s.samplingFreq }
  if initOk = false then (false, s) else (true, s)

/-- Source `audio_play`: starts the codec, then the circular DMA transfer of
`DMA_MAX(len / AUDIO_DATA_SIZE)` samples. `HAL_I2S_Transmit_DMA` is modelled as the transport
contract "start continuous transfer": the peripheral is enabled and the transfer runs. -/
def audio_play (len : Nat) (s : Player) : Player :=
  let s := { s with codec := CS43_start s.codec }
  { s with i2sEnabled := true, dma := DmaState.running, dmaLen := DMA_MAX (len / AUDIO_DATA_SIZE) }

/-- Source `audio_stop`: stops the codec, then the DMA transfer (`HAL_I2S_DMAStop` also
disables the peripheral). -/
def audio_stop (s : Player) : Player :=
  let s := { s with codec := CS43_stop s.codec }
  { s with i2sEnabled := false, dma := DmaState.stopped }

/-- Source `audio_pause`: stops the codec and pauses the DMA transfer (`HAL_I2S_DMAPause` acts
on a running transfer only). -/
def audio_pause (s : Player) : Player :=
  let s := { s with codec := CS43_stop s.codec }
  { s with dma := if s.dma = DmaState.running then DmaState.paused else s.dma }

/-- Source `audio_resume`: starts the codec and resumes the DMA transfer (`HAL_I2S_DMAResume`
acts on a paused transfer only). -/
def audio_resume (s : Player) : Player :=
  let s := { s with codec := CS43_start s.codec }
  { s with dma := if s.dma = DmaState.paused then DmaState.running else s.dma }

/-! ## wav_player.c: public functions -/

/-- Source `wavPlayer_reset`. -/
def wavPlayer_reset (s : Player) : Player :=
  { s with audioRemainSize := 0, player_bytes_read := 0 }

/-- Source `wavPlayer_openFile`. `wavHeader0` is the content of the uninitialised local
`wavHeader` before the read. The result of `f_read` and `readBytes` are not looked at. -/
def wavPlayer_openFile (disk : Disk) (wavHeader0 : Nat → Nat) (filePath : String)
    (s : Player) : Bool × Player :=
  let (fp, ok) := f_open disk filePath
  if ok = false then
    (false, { s with wavFile := fp })
  else
    let (fp, chunk) := f_read fp WAV_HEADER_SIZE
    let wavHeader := store wavHeader0 0 chunk
    let s := { s with wavFile := fp }
    let s := { s with fileLength := le32 wavHeader 4 }
    let s := { s with samplingFreq := le32 wavHeader 24 }
    (true, s)

/-- Source `wavPlayer_stop`. -/
def wavPlayer_stop (s : Player) : Player :=
  let s := audio_stop s
  let s := { s with wavFile := f_close s.wavFile }
  { s with is_song_finished := true }

/-- Source `wavPlayer_play`. `initOk` is whether `HAL_I2S_Init` returns `HAL_OK`; the value
`audio_adjust_freq` returns is dropped. -/
def wavPlayer_play (initOk : Bool) (s : Player) : Player :=
  let s := { s with is_song_finished := false }
  let s := audio_clock_config s.samplingFreq s
  let s := (audio_adjust_freq s.samplingFreq initOk s).2
  let s := { s with wavFile := f_lseek s.wavFile 0 }
  let (fp, chunk) := f_read s.wavFile AUDIO_BUFFER_SIZE
  let s := { s with
    wavFile := fp
    audioBuffer := store s.audioBuffer 0 chunk
    player_bytes_read := chunk.length
    fills := s.fills ++ [Fill.mk 0 AUDIO_BUFFER_SIZE chunk] }
  let s := { s with audioRemainSize := sub32 s.fileLength s.player_bytes_read }
  audio_play AUDIO_BUFFER_SIZE s

/-- Source `wavPlayer_proceed`. -/
def wavPlayer_proceed (s : Player) : Player :=
  match s.playerControlSM with
  | PLAYER_CONTROL_Idle => s
  | PLAYER_CONTROL_HalfBuffer =>
    let s := { s with player_bytes_read := 0 }
    let s := { s with playerControlSM := PLAYER_CONTROL_Idle }
    let (fp, chunk) := f_read s.wavFile (AUDIO_BUFFER_SIZE / 2)
    let s := { s with
      wavFile := fp
      audioBuffer := store s.audioBuffer 0 chunk
      player_bytes_read := chunk.length
      fills := s.fills ++ [Fill.mk 0 (AUDIO_BUFFER_SIZE / 2) chunk] }
    if s.audioRemainSize > AUDIO_BUFFER_SIZE / 2 then
      { s with audioRemainSize := sub32 s.audioRemainSize s.player_bytes_read }
    else
      { s with audioRemainSize := 0, playerControlSM := PLAYER_CONTROL_EndOfFile }
  | PLAYER_CONTROL_FullBuffer =>
    let s := { s with player_bytes_read := 0 }
    let s := { s with playerControlSM := PLAYER_CONTROL_Idle }
    let (fp, chunk) := f_read s.wavFile (AUDIO_BUFFER_SIZE / 2)
    let s := { s with
      wavFile := fp
      audioBuffer := store s.audioBuffer (AUDIO_BUFFER_SIZE / 2) chunk
      player_bytes_read := chunk.length
      fills := s.fills ++ [Fill.mk (AUDIO_BUFFER_SIZE / 2) (AUDIO_BUFFER_SIZE / 2) chunk] }
    if s.audioRemainSize > AUDIO_BUFFER_SIZE / 2 then
      { s with audioRemainSize := sub32 s.audioRemainSize s.player_bytes_read }
    else
      { s with audioRemainSize := 0, playerControlSM := PLAYER_CONTROL_EndOfFile }
  | PLAYER_CONTROL_EndOfFile =>
    let s := wavPlayer_stop s
    let s := wavPlayer_reset s
    let s := { s with is_song_finished := true }
    { s with playerControlSM := PLAYER_CONTROL_Idle }

/-- The common shape of the two refill branches of `wavPlayer_proceed`, which differ in the
destination only: `off` is 0 in case `PLAYER_CONTROL_HalfBuffer` and `AUDIO_BUFFER_SIZE / 2`
in case `PLAYER_CONTROL_FullBuffer` (see `proceed_HalfBuffer` and `proceed_FullBuffer`). -/
def refill (off : Nat) (s : Player) : Player :=
  let s := { s with player_bytes_read := 0 }
  let s := { s with playerControlSM := PLAYER_CONTROL_Idle }
  let (fp, chunk) := f_read s.wavFile (AUDIO_BUFFER_SIZE / 2)
  let s := { s with
    wavFile := fp
    audioBuffer := store s.audioBuffer off chunk
    player_bytes_read := chunk.length
    fills := s.fills ++ [Fill.mk off (AUDIO_BUFFER_SIZE / 2) chunk] }
  if s.audioRemainSize > AUDIO_BUFFER_SIZE / 2 then
    { s with audioRemainSize := sub32 s.audioRemainSize s.player_bytes_read }
  else
    { s with audioRemainSize := 0, playerControlSM := PLAYER_CONTROL_EndOfFile }

/-- Source `wavPlayer_pause`. -/
def wavPlayer_pause (s : Player) : Player := audio_pause s

/-- Source `wavPlayer_resume`. -/
def wavPlayer_resume (s : Player) : Player := audio_resume s

/-- Source `wavPlayer_setVolume`. -/
def wavPlayer_setVolume (volume : Nat) (s : Player) : Player :=
  { s with codec := CS43_set_volume volume s.codec }

/-- Source `is_wavPlayer_finished_Playing`. -/
def is_wavPlayer_finished_Playing (s : Player) : Bool := s.is_song_finished

/-- Source `HAL_I2S_TxCpltCallback`. -/
def HAL_I2S_TxCpltCallback (instance_ : SPI_Instance) (s : Player) : Player :=
  if instance_ = SPI_Instance.SPI3 then
    { s with playerControlSM := PLAYER_CONTROL_HalfBuffer }
  else s

/-- Source `HAL_I2S_TxHalfCpltCallback`. -/
def HAL_I2S_TxHalfCpltCallback (instance_ : SPI_Instance) (s : Player) : Player :=
  if instance_ = SPI_Instance.SPI3 then
    { s with playerControlSM := PLAYER_CONTROL_FullBuffer }
  else s

/-! ## Runs of the engine -/

/-- The two completion notifications of the transport the player drives (`hi2s3`, whose
instance is SPI3). -/
inductive Notification
  | txCplt
  | txHalfCplt
  deriving DecidableEq, Repr

/-- Delivery of a completion notification of `hi2s3`. -/
def Notification.deliver : Notification → Player → Player
  | Notification.txCplt, s => HAL_I2S_TxCpltCallback SPI_Instance.SPI3 s
  | Notification.txHalfCplt, s => HAL_I2S_TxHalfCpltCallback SPI_Instance.SPI3 s

/-- The buffer offset a notification asks to refill from. -/
def Notification.target : Notification → Nat
  | Notification.txCplt => 0
  | Notification.txHalfCplt => AUDIO_BUFFER_SIZE / 2

/-- The buffer offset of the half the circular transfer has just finished transmitting when it
raises the notification: the half-complete notification comes when the transfer crosses the
middle of the buffer (the first half is consumed), the complete notification when it has
finished the buffer and starts again at offset 0 (the second half is consumed). -/
def Notification.vacated : Notification → Nat
  | Notification.txCplt => AUDIO_BUFFER_SIZE / 2
  | Notification.txHalfCplt => 0

/-- Completion notifications in the order given, each answered by one `wavPlayer_proceed`. -/
def serve : List Notification → Player → Player
  | [], s => s
  | ev :: evs, s => serve evs (wavPlayer_proceed (ev.deliver s))

/-- The total number of bytes the storage reads have copied into the buffer. -/
def bytesCopied (s : Player) : Nat := (s.fills.map (fun f => f.bytes.length)).sum

/-- All bytes the storage reads have copied into the buffer, in the order copied. -/
def streamCopied (s : Player) : List Nat := (s.fills.map (fun f => f.bytes)).flatten

/-- The transport is stopped: the DMA transfer is stopped and the last value sent to the
codec power control register is the power-down value 0x9F of `CS43_stop`. -/
def transportStopped (s : Player) : Prop :=
  s.dma = DmaState.stopped ∧ CS43_read_register POWER_CONTROL1 s.codec = 0x9F

instance (s : Player) : Decidable (transportStopped s) := by
  unfold transportStopped; infer_instance

/-- The player as the C start-up code leaves it: zero-initialised statics, state machine in
`PLAYER_CONTROL_Idle`, no file open, transport at rest, nothing sent to the codec. -/
def Player.boot : Player where
  wavFile := none
  fileLength := 0
  audioBuffer := fun _ => 0
  audioRemainSize := 0
  samplingFreq := 0
  player_bytes_read := 0
  is_song_finished := false
  playerControlSM := PLAYER_CONTROL_Idle
  codec := []
  plli2sN := 0
  plli2sR := 0
  i2sEnabled := false
  i2sAudioFreq := 0
  dma := DmaState.stopped
  dmaLen := 0
  fills := []

/-- The calls the main loop and the interrupt handlers make while a track plays, apart from
`wavPlayer_stop`: the two completion callbacks (for any I2S instance), pause, resume,
set-volume and proceed. -/
inductive Op
  | txCplt (inst : SPI_Instance)
  | txHalfCplt (inst : SPI_Instance)
  | pause
  | resume
  | setVolume (volume : Nat)
  | proceed
  deriving DecidableEq, Repr

/-- The effect of one call. -/
def Op.apply : Op → Player → Player
  | Op.txCplt inst, s => HAL_I2S_TxCpltCallback inst s
  | Op.txHalfCplt inst, s => HAL_I2S_TxHalfCpltCallback inst s
  | Op.pause, s => wavPlayer_pause s
  | Op.resume, s => wavPlayer_resume s
  | Op.setVolume volume, s => wavPlayer_setVolume volume s
  | Op.proceed, s => wavPlayer_proceed s

/-- The calls in the order given. -/
def run : List Op → Player → Player
  | [], s => s
  | op :: ops, s => run ops (op.apply s)

/-- Whether, in the run of `ops` from `s`, no `wavPlayer_proceed` starts with the state
machine in `PLAYER_CONTROL_EndOfFile`. -/
def proceedAvoidsEndOfFile : List Op → Player → Bool
  | [], _ => true
  | op :: ops, s =>
    (!(decide (op = Op.proceed) && decide (s.playerControlSM = PLAYER_CONTROL_EndOfFile)))
      && proceedAvoidsEndOfFile ops (op.apply s)

/-- The booted player with the file `bytes` open at offset 0 and `fileLength` as stored
payload length. -/
def Player.withTrack (bytes : List Nat) (fileLength : Nat) : Player :=
  { Player.boot with wavFile := some { data := bytes, fptr := 0 }, fileLength := fileLength }

/-- A disk that holds one file, `bytes` under `name`. -/
def Disk.single (name : String) (bytes : List Nat) : Disk :=
  fun path => if path = name then some bytes else none

/-- A disk without files: every open fails. -/
def Disk.empty : Disk := fun _ => none

/-- The four bytes of a 32-bit value, least significant first. -/
def le32Bytes (x : Nat) : List Nat :=
  [x % 256, x / 256 % 256, x / 65536 % 256, x / 16777216 % 256]

/-- A canonical 16-bit stereo PCM file in the layout of `WAV_HeaderTypeDef`: the tags "RIFF",
"WAVE", "fmt " and "data", `FileSize` 8 less than the size of the file, and `payload` from
offset 44 on. -/
def riffFile (sampleRate : Nat) (payload : List Nat) : List Nat :=
  [82, 73, 70, 70] ++ le32Bytes (36 + payload.length) ++ [87, 65, 86, 69]
    ++ [102, 109, 116, 32] ++ le32Bytes 16 ++ [1, 0] ++ [2, 0]
    ++ le32Bytes sampleRate ++ le32Bytes (4 * sampleRate) ++ [4, 0] ++ [16, 0]
    ++ [100, 97, 116, 97] ++ le32Bytes payload.length ++ payload

/-- A 44-byte header without any chunk tag: zero everywhere except `FileSize` (bytes 4..7)
and `SampleRate` (bytes 24..27). -/
def untaggedHeader (fileSize sampleRate : Nat) : List Nat :=
  [0, 0, 0, 0] ++ le32Bytes fileSize ++ List.replicate 16 0 ++ le32Bytes sampleRate
    ++ List.replicate 16 0

/-! ## main.c: the song index

The part of `main.c` that handles `song_idx`: the button interrupt handler and the
`if(start_song)` block of the main loop. LEDs, delays and the character display are not
modelled; `display_song_info` keeps its subscript of `songs`. A subscript of `songs` outside
the table is undefined behaviour: the functions that subscript return `none` there. -/

def NUM_SONGS : Nat := 11
def DEFAULT_SONG_IDX : Nat := 1

/-- Source table `songs`. -/
def songs : List String :=
  ["Song1.wav", "Song2.wav", "Song3.wav", "Song4.wav", "Song5.wav", "Song6.wav",
    "Song7.wav", "Song8.wav", "Song9.wav", "Song10.wav", "Song11.wav"]

/-- Source enum `song_mov_t`. -/
inductive song_mov_t
  | CURR_SONG
  | NEXT_SONG
  | PREV_SONG
  deriving DecidableEq, Repr

/-- The pins `HAL_GPIO_EXTI_Callback` tells apart, and any other pin. -/
inductive GPIO_Pin
  | EXT_PB1
  | EXT_PB2
  | EXT_PB3
  | EXT_PB4
  | other
  deriving DecidableEq, Repr

/-- Where the main loop stands inside the `if(start_song)` block: before the first open
(line 221), at the test of `while(!is_wavPlayer_finished_Playing())` (line 226), or behind
that loop, before the index update (line 259). -/
inductive MainLoc
  | startSong
  | whileTest
  | afterWhile
  deriving DecidableEq, Repr

/-- The globals of `main.c` (`volume`, `song_idx`, `song_mov`), the local `pauseResumeToggle`,
the position of the main loop and the player. -/
structure App where
  player : Player
  volume : Nat
  song_idx : Nat
  song_mov : song_mov_t
  pauseResumeToggle : Bool
  loc : MainLoc

/-- What the main loop finds outside the program: the disk, the content of the uninitialised
header buffer of `wavPlayer_openFile`, and whether `HAL_I2S_Init` succeeds. -/
structure Env where
  disk : Disk
  wavHeader0 : Nat → Nat
  initOk : Bool

/-- The application when the main loop first reaches the `if(start_song)` block with no
button interrupt taken yet: `song_idx = DEFAULT_SONG_IDX`, `volume = 200`. -/
def App.boot : App where
  player := wavPlayer_reset Player.boot
  volume := 200
  song_idx := DEFAULT_SONG_IDX
  song_mov := song_mov_t.CURR_SONG
  pauseResumeToggle := false
  loc := MainLoc.startSong

/-- Source `HAL_GPIO_EXTI_Callback`. -/
def HAL_GPIO_EXTI_Callback (pin : GPIO_Pin) (a : App) : App :=
  match pin with
  | GPIO_Pin.EXT_PB1 =>
    if a.volume ≤ 250 then
      let a := { a with volume := (a.volume + 5) % 256 }
      { a with player := wavPlayer_setVolume a.volume a.player }
    else a
  | GPIO_Pin.EXT_PB2 =>
    if a.volume > 5 then
      let a := { a with volume := (a.volume - 5) % 256 }
      { a with player := wavPlayer_setVolume a.volume a.player }
    else a
  | GPIO_Pin.EXT_PB3 =>
    if a.song_idx < NUM_SONGS then
      let a := { a with song_idx := (a.song_idx + 1) % 256 }
      { a with song_mov := song_mov_t.NEXT_SONG }
    else a
  | GPIO_Pin.EXT_PB4 =>
    if a.song_idx > 0 then
      let a := { a with song_idx := (a.song_idx - 1) % 256 }
      { a with song_mov := song_mov_t.PREV_SONG }
    else a
  | GPIO_Pin.other => a

/-- Source `display_song_info`: formats `songs[song_idx]` for the display. -/
def display_song_info (a : App) : Option App :=
  match songs.get? a.song_idx with
  | some _ => some a
  | none => none

/-- The statement `if(wavPlayer_openFile(songs[song_idx])){ display_song_info();
wavPlayer_play(); }`, which `main` has at lines 221-224 and at lines 232-235. -/
def openDisplayPlay (env : Env) (a : App) : Option App :=
  match songs.get? a.song_idx with
  | none => none
  | some filePath =>
    let (ok, p) := wavPlayer_openFile env.disk env.wavHeader0 filePath a.player
    let a := { a with player := p }
    if ok then
      match display_song_info a with
      | none => none
      | some a => some { a with player := wavPlayer_play env.initOk a.player }
    else some a

/-- One step of the `if(start_song)` block of `main` (lines 217-264): the first open, one
test of the `while` with one pass through its body, or the index update behind the loop, after
which the block starts again. `buttonPressed` is what `HAL_GPIO_ReadPin(GPIOA, PUSH_BUTTON1)`
returns inside the loop body. -/
def mainStep (env : Env) (buttonPressed : Bool) (a : App) : Option App :=
  match a.loc with
  | MainLoc.startSong =>
    match openDisplayPlay env a with
    | none => none
    | some a => some { a with loc := MainLoc.whileTest }
  | MainLoc.whileTest =>
    if is_wavPlayer_finished_Playing a.player then
      some { a with loc := MainLoc.afterWhile }
    else if a.song_mov = song_mov_t.PREV_SONG ∨ a.song_mov = song_mov_t.NEXT_SONG then
      let a := { a with song_mov := song_mov_t.CURR_SONG }
      let a := { a with player := wavPlayer_stop a.player }
      openDisplayPlay env a
    else
      let a := { a with player := wavPlayer_proceed a.player }
      if buttonPressed then
        let a := { a with pauseResumeToggle := !a.pauseResumeToggle }
        if a.pauseResumeToggle then
          some { a with player := wavPlayer_pause a.player }
        else
          some { a with player := wavPlayer_resume a.player }
      else some a
  | MainLoc.afterWhile =>
    let a := if a.song_idx < NUM_SONGS then { a with song_idx := (a.song_idx + 1) % 256 } else a
    some { a with loc := MainLoc.startSong }

/-- What can happen next: a step of the main loop, a button interrupt, or a completion
interrupt of the I2S transfer. -/
inductive Event
  | main (buttonPressed : Bool)
  | exti (pin : GPIO_Pin)
  | txCplt
  | txHalfCplt
  deriving DecidableEq, Repr

/-- The effect of one event. -/
def Event.apply (env : Env) : Event → App → Option App
  | Event.main buttonPressed, a => mainStep env buttonPressed a
  | Event.exti pin, a => some (HAL_GPIO_EXTI_Callback pin a)
  | Event.txCplt, a =>
    some { a with player := HAL_I2S_TxCpltCallback SPI_Instance.SPI3 a.player }
  | Event.txHalfCplt, a =>
    some { a with player := HAL_I2S_TxHalfCpltCallback SPI_Instance.SPI3 a.player }

/-- The events in the order given; `none` once `songs` has been subscripted outside the
table. -/
def runApp (env : Env) : List Event → App → Option App
  | [], a => some a
  | e :: es, a =>
    match e.apply env a with
    | none => none
    | some a => runApp env es a

/-- The events of one track played to its end without any button: the open and play, one
completion interrupt, the refill that finds nothing left, the teardown, the exit from the
`while`, and the index update. -/
def oneTrack : List Event :=
  [Event.main false, Event.txCplt, Event.main false, Event.main false, Event.main false,
    Event.main false]

/-- A disk that holds the eleven songs of the table, each a 44-byte file whose header gives
`FileSize` 44 and `SampleRate` 44100. -/
def Disk.album : Disk :=
  fun path => if path ∈ songs then some (untaggedHeader 44 44100) else none

/-- The environment with the album disk, a zeroed header buffer and a working I2S. -/
def Env.album : Env where
  disk := Disk.album
  wavHeader0 := fun _ => 0
  initOk := true

/-! ## Volume encoder -/

/-- Claim C1: for every volume v in 0..255, wavPlayer_setVolume (through CS43_set_volume) sends to
both headphone volume registers the code v - 231 when 231 <= v and v + 25 otherwise; that code
is below 256, so neither branch wraps around; 230 gives 255, 231 gives 0, 0 gives 25 and 255
gives 24. -/
theorem setVolume_writes_code (v : Nat) (hv : v < 256) (s : Player) :
    (wavPlayer_setVolume v s).codec =
        s.codec ++ [(HEADPHONE_A_VOL, if 231 ≤ v then v - 231 else v + 25),
                    (HEADPHONE_B_VOL, if 231 ≤ v then v - 231 else v + 25)]
      ∧ (if 231 ≤ v then v - 231 else v + 25) < 256
      ∧ CS43_set_volume_code v = (if 231 ≤ v then v - 231 else v + 25)
      ∧ CS43_set_volume_code 230 = 255 ∧ CS43_set_volume_code 231 = 0
      ∧ CS43_set_volume_code 0 = 25 ∧ CS43_set_volume_code 255 = 24 := by
  have hcode : CS43_set_volume_code v = (if 231 ≤ v then v - 231 else v + 25) := by
    unfold CS43_set_volume_code
    split_ifs <;> omega
  refine ⟨?_, ?_, hcode, by decide, by decide, by decide, by decide⟩
  · simp only [wavPlayer_setVolume, CS43_set_volume, CS43_write_register, hcode,
      List.append_assoc, List.singleton_append]
  · split_ifs <;> omega

/-- Witness of C1 at volume 230 on the freshly booted player. -/
theorem setVolume_writes_code_witness :
    230 < 256 ∧
    ((wavPlayer_setVolume 230 Player.boot).codec =
        Player.boot.codec ++ [(HEADPHONE_A_VOL, if 231 ≤ 230 then 230 - 231 else 230 + 25),
                    (HEADPHONE_B_VOL, if 231 ≤ 230 then 230 - 231 else 230 + 25)]
      ∧ (if 231 ≤ 230 then 230 - 231 else 230 + 25) < 256
      ∧ CS43_set_volume_code 230 = (if 231 ≤ 230 then 230 - 231 else 230 + 25)
      ∧ CS43_set_volume_code 230 = 255 ∧ CS43_set_volume_code 231 = 0
      ∧ CS43_set_volume_code 0 = 25 ∧ CS43_set_volume_code 255 = 24) :=
  ⟨by decide, setVolume_writes_code 230 (by decide) Player.boot⟩

/-- Claim C2: the volume encoding of CS43_set_volume is a bijection on 0..255: it maps 0..255 into
0..255, distinct inputs give distinct codes, and every code in 0..255 is the code of some
input in 0..255. -/
theorem volume_code_bijection :
    (∀ v, v < 256 → CS43_set_volume_code v < 256)
      ∧ (∀ a b, a < 256 → b < 256 →
          CS43_set_volume_code a = CS43_set_volume_code b → a = b)
      ∧ (∀ c, c < 256 → ∃ v, v < 256 ∧ CS43_set_volume_code v = c) := by
  refine ⟨?_, ?_, ?_⟩
  · intro v hv
    unfold CS43_set_volume_code
    split_ifs <;> omega
  · intro a b ha hb h
    unfold CS43_set_volume_code at h
    split_ifs at h <;> omega
  · intro c hc
    by_cases h : c < 25
    · refine ⟨c + 231, by omega, ?_⟩
      unfold CS43_set_volume_code
      split_ifs <;> omega
    · refine ⟨c - 25, by omega, ?_⟩
      unfold CS43_set_volume_code
      split_ifs <;> omega


/-! ## Lemmas about the engine -/

/-- The branch `PLAYER_CONTROL_HalfBuffer` of `wavPlayer_proceed` is the refill at offset 0. -/
theorem proceed_HalfBuffer (s : Player) (h : s.playerControlSM = PLAYER_CONTROL_HalfBuffer) :
    wavPlayer_proceed s = refill 0 s := by
  unfold wavPlayer_proceed refill
  rw [h]

/-- The branch `PLAYER_CONTROL_FullBuffer` of `wavPlayer_proceed` is the refill at the middle
of the buffer. -/
theorem proceed_FullBuffer (s : Player) (h : s.playerControlSM = PLAYER_CONTROL_FullBuffer) :
    wavPlayer_proceed s = refill (AUDIO_BUFFER_SIZE / 2) s := by
  unfold wavPlayer_proceed refill
  rw [h]

/-- In `PLAYER_CONTROL_Idle` the proceed does nothing. -/
theorem proceed_Idle (s : Player) (h : s.playerControlSM = PLAYER_CONTROL_Idle) :
    wavPlayer_proceed s = s := by
  unfold wavPlayer_proceed
  rw [h]

/-- A refill on an open file: the new read pointer, the fill recorded, the remaining-byte
counter, the next state and the byte count. -/
theorem refill_open (off : Nat) (t : Player) (d : List Nat) (p : Nat)
    (h : t.wavFile = some ⟨d, p⟩) :
    (refill off t).wavFile = some ⟨d, p + ((d.drop p).take 2048).length⟩
    ∧ (refill off t).fills = t.fills ++ [Fill.mk off 2048 ((d.drop p).take 2048)]
    ∧ (refill off t).fileLength = t.fileLength
    ∧ (refill off t).audioRemainSize =
        (if t.audioRemainSize > 2048 then sub32 t.audioRemainSize ((d.drop p).take 2048).length else 0)
    ∧ (refill off t).playerControlSM =
        (if t.audioRemainSize > 2048 then PLAYER_CONTROL_Idle else PLAYER_CONTROL_EndOfFile)
    ∧ (refill off t).player_bytes_read = ((d.drop p).take 2048).length := by
  unfold refill
  simp only [h, f_read, AUDIO_BUFFER_SIZE]
  split_ifs <;> simp_all

/-- A delivered notification makes the next proceed a refill at the notification's target and
touches neither file, history nor counters. -/
theorem proceed_deliver (ev : Notification) (t : Player) :
    wavPlayer_proceed (ev.deliver t) = refill ev.target (ev.deliver t)
    ∧ (ev.deliver t).wavFile = t.wavFile ∧ (ev.deliver t).fills = t.fills
    ∧ (ev.deliver t).fileLength = t.fileLength
    ∧ (ev.deliver t).audioRemainSize = t.audioRemainSize := by
  cases ev
  · refine ⟨proceed_HalfBuffer _ ?_, ?_⟩ <;>
      simp [Notification.deliver, HAL_I2S_TxCpltCallback]
  · refine ⟨proceed_FullBuffer _ ?_, ?_⟩ <;>
      simp [Notification.deliver, HAL_I2S_TxHalfCpltCallback]

/-- One more fill appends its bytes to the copied stream. -/
theorem streamCopied_append (t u : Player) (x : Fill) (h : u.fills = t.fills ++ [x]) :
    streamCopied u = streamCopied t ++ x.bytes := by
  simp [streamCopied, h]

/-- The byte total is the length of the copied stream. -/
theorem bytesCopied_eq (t : Player) : bytesCopied t = (streamCopied t).length := by
  simp [bytesCopied, streamCopied, List.length_flatten, Function.comp_def]

/-- Serving notifications on an open file whose remaining-byte counter agrees with the read
pointer: every notification advances the pointer by half a buffer, up to the end of the file. -/
theorem serve_open (d : List Nat) (hd : d.length < 4294967296) :
    ∀ (evs : List Notification) (t : Player) (p : Nat),
      t.wavFile = some ⟨d, p⟩ → p ≤ d.length → t.audioRemainSize = d.length - p →
      (serve evs t).wavFile = some ⟨d, min d.length (p + 2048 * evs.length)⟩
      ∧ (serve evs t).audioRemainSize = d.length - min d.length (p + 2048 * evs.length)
      ∧ (serve evs t).fileLength = t.fileLength
      ∧ streamCopied (serve evs t) = streamCopied t ++ (d.drop p).take (2048 * evs.length)
      ∧ (evs ≠ [] → ((serve evs t).playerControlSM = PLAYER_CONTROL_EndOfFile
            ↔ d.length ≤ p + 2048 * evs.length)) := by
  intro evs
  induction evs with
  | nil =>
    intro t p hf hp hr
    simp [serve, hf, hr, Nat.min_eq_right hp]
  | cons ev evs ih =>
    intro t p hf hp hr
    obtain ⟨hpd, hdf, hdfi, hdl, hdr⟩ := proceed_deliver ev t
    obtain ⟨rf, rfi, rl, rr, rsm, -⟩ := refill_open ev.target (ev.deliver t) d p (hdf.trans hf)
    have hlen : ((d.drop p).take 2048).length = min 2048 (d.length - p) := by
      simp [List.length_take, List.length_drop]
    rw [hlen] at rf rr
    rw [hdr, hr] at rr rsm
    have hp' : p + min 2048 (d.length - p) ≤ d.length := by omega
    have hr' : (refill ev.target (ev.deliver t)).audioRemainSize
        = d.length - (p + min 2048 (d.length - p)) := by
      rw [rr]; unfold sub32; split_ifs <;> omega
    obtain ⟨i1, i2, i3, i4, i5⟩ := ih (refill ev.target (ev.deliver t)) _ rf hp' hr'
    have hs := streamCopied_append (ev.deliver t) (refill ev.target (ev.deliver t)) _ rfi
    have hs0 : streamCopied (ev.deliver t) = streamCopied t := by
      simp [streamCopied, hdfi]
    simp only [serve, hpd, List.length_cons]
    refine ⟨?_, ?_, ?_, ?_, ?_⟩
    · rw [i1]; congr 2; omega
    · rw [i2]; omega
    · rw [i3, rl, hdl]
    · rw [i4, hs, hs0, List.append_assoc]
      congr 1
      by_cases hc : p + 2048 ≤ d.length
      · have : min 2048 (d.length - p) = 2048 := by omega
        rw [this, ← List.drop_drop, ← List.take_add]
        congr 1
        omega
      · have h1 : (d.drop p).length ≤ 2048 := by simp; omega
        have h2 : (d.drop p).length ≤ 2048 * (evs.length + 1) := by omega
        have h3 : d.length ≤ p + min 2048 (d.length - p) := by omega
        rw [List.take_of_length_le h1, List.take_of_length_le h2, List.drop_of_length_le h3]
        simp
    · intro _
      by_cases he : evs = []
      · subst he
        simp only [serve, rsm, List.length_nil]
        split_ifs <;> simp <;> omega
      · rw [i5 he]
        omega

/-- The clock configuration changes the PLLI2S factors only. -/
theorem audio_clock_config_frame (a : Nat) (u : Player) :
    (audio_clock_config a u).wavFile = u.wavFile
    ∧ (audio_clock_config a u).fills = u.fills
    ∧ (audio_clock_config a u).fileLength = u.fileLength
    ∧ (audio_clock_config a u).samplingFreq = u.samplingFreq
    ∧ (audio_clock_config a u).audioBuffer = u.audioBuffer
    ∧ (audio_clock_config a u).playerControlSM = u.playerControlSM
    ∧ (audio_clock_config a u).is_song_finished = u.is_song_finished
    ∧ (audio_clock_config a u).codec = u.codec
    ∧ (audio_clock_config a u).dma = u.dma := by
  unfold audio_clock_config
  simp only
  split_ifs <;> simp

/-- The first fill of `wavPlayer_play` on an open file. -/
theorem play_open (initOk : Bool) (s : Player) (f : FIL) (h : s.wavFile = some f) :
    (wavPlayer_play initOk s).wavFile = some ⟨f.data, min 4096 f.data.length⟩
    ∧ (wavPlayer_play initOk s).fills = s.fills ++ [Fill.mk 0 4096 (f.data.take 4096)]
    ∧ (wavPlayer_play initOk s).fileLength = s.fileLength
    ∧ (wavPlayer_play initOk s).audioRemainSize
        = sub32 s.fileLength (min 4096 f.data.length)
    ∧ (wavPlayer_play initOk s).player_bytes_read = min 4096 f.data.length := by
  unfold wavPlayer_play audio_adjust_freq audio_play
  simp only [f_lseek, f_read, AUDIO_BUFFER_SIZE]
  split_ifs <;>
    simp [(audio_clock_config_frame _ _).1, (audio_clock_config_frame _ _).2.1,
      (audio_clock_config_frame _ _).2.2.1, h]

/-- One notification answered by one proceed, on an open file. -/
theorem step_open (ev : Notification) (t : Player) (d : List Nat) (p : Nat)
    (h : t.wavFile = some ⟨d, p⟩) :
    (wavPlayer_proceed (ev.deliver t)).wavFile = some ⟨d, p + min 2048 (d.length - p)⟩
    ∧ (wavPlayer_proceed (ev.deliver t)).player_bytes_read = min 2048 (d.length - p)
    ∧ (wavPlayer_proceed (ev.deliver t)).audioRemainSize =
        (if t.audioRemainSize > 2048 then sub32 t.audioRemainSize (min 2048 (d.length - p))
          else 0)
    ∧ (wavPlayer_proceed (ev.deliver t)).playerControlSM =
        (if t.audioRemainSize > 2048 then PLAYER_CONTROL_Idle else PLAYER_CONTROL_EndOfFile)
    ∧ (wavPlayer_proceed (ev.deliver t)).dma = t.dma := by
  cases ev <;>
    simp [Notification.deliver, HAL_I2S_TxCpltCallback, HAL_I2S_TxHalfCpltCallback,
      wavPlayer_proceed, refill, f_read, h, AUDIO_BUFFER_SIZE] <;>
    split_ifs <;> simp

/-- After `CS43_stop` the power control register reads 0x9F. -/
theorem read_after_stop (c : Codec) : CS43_read_register POWER_CONTROL1 (CS43_stop c) = 0x9F := by
  simp [CS43_stop, CS43_write_register, CS43_read_register, POWER_CONTROL1]

/-- The teardown branch of `wavPlayer_proceed`, field by field. -/
theorem proceed_EndOfFile (s : Player) (h : s.playerControlSM = PLAYER_CONTROL_EndOfFile) :
    wavPlayer_proceed s =
      { s with
        codec := CS43_stop s.codec
        i2sEnabled := false
        dma := DmaState.stopped
        wavFile := none
        is_song_finished := true
        audioRemainSize := 0
        player_bytes_read := 0
        playerControlSM := PLAYER_CONTROL_Idle } := by
  simp [wavPlayer_proceed, h, wavPlayer_stop, wavPlayer_reset, audio_stop, f_close]

/-- The teardown branch stops the transport, closes the file, sets the finished flag and
returns the state machine to idle. -/
theorem teardown_effects (s : Player)
    (h : s.playerControlSM = PLAYER_CONTROL_EndOfFile) :
    transportStopped (wavPlayer_proceed s)
    ∧ (wavPlayer_proceed s).wavFile = none
    ∧ is_wavPlayer_finished_Playing (wavPlayer_proceed s) = true
    ∧ (wavPlayer_proceed s).playerControlSM = PLAYER_CONTROL_Idle := by
  rw [proceed_EndOfFile s h]
  exact ⟨⟨rfl, read_after_stop s.codec⟩, rfl, rfl, rfl⟩

/-- What `wavPlayer_play` does to the transport, the finished flag and the state machine. -/
theorem play_dma (initOk : Bool) (s : Player) :
    (wavPlayer_play initOk s).dma = DmaState.running
    ∧ (wavPlayer_play initOk s).is_song_finished = false
    ∧ (wavPlayer_play initOk s).playerControlSM = s.playerControlSM := by
  unfold wavPlayer_play audio_adjust_freq audio_play
  simp only [f_lseek, f_read, AUDIO_BUFFER_SIZE]
  split_ifs <;>
    simp [(audio_clock_config_frame _ _).2.2.2.2.2.1, (audio_clock_config_frame _ _).2.2.2.2.2.2.1]

/-- A read never delivers more than asked for. -/
theorem f_read_length_le (fp : Option FIL) (btr : Nat) : (f_read fp btr).2.length ≤ btr := by
  cases fp with
  | none => simp [f_read]
  | some f => simp [f_read, List.length_take]

/-- The buffer and the history after a refill. -/
theorem refill_buffer (off : Nat) (s : Player) :
    (refill off s).audioBuffer = store s.audioBuffer off (f_read s.wavFile 2048).2
    ∧ (refill off s).fills = s.fills ++ [Fill.mk off 2048 (f_read s.wavFile 2048).2] := by
  unfold refill
  simp only [AUDIO_BUFFER_SIZE]
  split_ifs <;> simp

/-- A store leaves the offsets outside the stored range alone. -/
theorem store_outside (buff : Nat → Nat) (off : Nat) (chunk : List Nat) (i : Nat)
    (h : i < off ∨ off + chunk.length ≤ i) : store buff off chunk i = buff i := by
  unfold store
  rw [if_neg]
  omega

/-- A store puts the chunk at the destination offset. -/
theorem store_inside (buff : Nat → Nat) (off : Nat) (chunk : List Nat) (i : Nat)
    (h : i < chunk.length) : store buff off chunk (off + i) = chunk.getD i 0 := by
  unfold store
  rw [if_pos (by omega)]
  congr 1
  omega

/-- The proceed that follows a refill reads nothing. -/
theorem proceed_after_refill_no_fill (off : Nat) (s : Player) :
    (wavPlayer_proceed (refill off s)).fills = (refill off s).fills
    ∧ (wavPlayer_proceed (refill off s)).audioBuffer = (refill off s).audioBuffer := by
  have hsm : (refill off s).playerControlSM = PLAYER_CONTROL_Idle
      ∨ (refill off s).playerControlSM = PLAYER_CONTROL_EndOfFile := by
    unfold refill
    simp only
    split_ifs <;> simp
  rcases hsm with h | h
  · simp [wavPlayer_proceed, h]
  · rw [proceed_EndOfFile _ h]
    exact ⟨rfl, rfl⟩

/-- No call other than a proceed in `PLAYER_CONTROL_EndOfFile` changes the finished flag. -/
theorem apply_keeps_finished (op : Op) (t : Player)
    (h : ¬ (op = Op.proceed ∧ t.playerControlSM = PLAYER_CONTROL_EndOfFile)) :
    (op.apply t).is_song_finished = t.is_song_finished := by
  cases op with
  | txCplt inst => simp only [Op.apply, HAL_I2S_TxCpltCallback]; split_ifs <;> rfl
  | txHalfCplt inst => simp only [Op.apply, HAL_I2S_TxHalfCpltCallback]; split_ifs <;> rfl
  | pause => rfl
  | resume => rfl
  | setVolume v => rfl
  | proceed =>
    have hsm : t.playerControlSM ≠ PLAYER_CONTROL_EndOfFile := fun e => h ⟨rfl, e⟩
    simp only [Op.apply, wavPlayer_proceed]
    cases hc : t.playerControlSM with
    | PLAYER_CONTROL_Idle => rfl
    | PLAYER_CONTROL_HalfBuffer => simp only [refill]; split_ifs <;> rfl
    | PLAYER_CONTROL_FullBuffer => simp only [refill]; split_ifs <;> rfl
    | PLAYER_CONTROL_EndOfFile => exact absurd hc hsm

/-- A run without a proceed in `PLAYER_CONTROL_EndOfFile` keeps the finished flag. -/
theorem run_keeps_finished : ∀ (ops : List Op) (t : Player),
    proceedAvoidsEndOfFile ops t = true →
    (run ops t).is_song_finished = t.is_song_finished := by
  intro ops
  induction ops with
  | nil => intro t _; rfl
  | cons op ops ih =>
    intro t h
    simp only [proceedAvoidsEndOfFile, Bool.and_eq_true, Bool.not_eq_true', Bool.and_eq_false_imp,
      decide_eq_true_eq, decide_eq_false_iff_not] at h
    obtain ⟨h1, h2⟩ := h
    have := apply_keeps_finished op t (fun hc => h1 hc.1 hc.2)
    simp only [run]
    rw [ih _ h2, this]

/-! ## The playback engine -/

/-- Claim C3: the stored payload length is L, the open file holds exactly L bytes (so a read
is short only at its end), and wavPlayer_play is followed by completion notifications each
answered by one wavPlayer_proceed. Then the bytes copied into the buffer are at every moment
the first 4096 + 2048 k bytes of the file in file order (k the number of notifications);
after at least one notification the state machine is in PLAYER_CONTROL_EndOfFile exactly when
L <= 4096 + 2048 k, hence it is reached; and whenever it is, the bytes copied in this run are
the L bytes of the file, each once and in order. -/
theorem play_then_serve_copies_payload (s : Player) (f : FIL) (initOk : Bool)
    (evs : List Notification)
    (hfile : s.wavFile = some f) (hlen : f.data.length = s.fileLength)
    (h32 : s.fileLength < 4294967296) :
    streamCopied (serve evs (wavPlayer_play initOk s))
        = streamCopied s ++ f.data.take (4096 + 2048 * evs.length)
    ∧ (evs ≠ [] →
        ((serve evs (wavPlayer_play initOk s)).playerControlSM = PLAYER_CONTROL_EndOfFile
          ↔ s.fileLength ≤ 4096 + 2048 * evs.length))
    ∧ (evs ≠ [] →
        (serve evs (wavPlayer_play initOk s)).playerControlSM = PLAYER_CONTROL_EndOfFile →
        bytesCopied (serve evs (wavPlayer_play initOk s)) = bytesCopied s + s.fileLength
        ∧ streamCopied (serve evs (wavPlayer_play initOk s)) = streamCopied s ++ f.data) := by
  obtain ⟨p1, p2, p3, p4, -⟩ := play_open initOk s f hfile
  have hd : f.data.length < 4294967296 := by omega
  have hp : min 4096 f.data.length ≤ f.data.length := by omega
  have hr : (wavPlayer_play initOk s).audioRemainSize
      = f.data.length - min 4096 f.data.length := by
    rw [p4]; unfold sub32; omega
  obtain ⟨-, -, -, i4, i5⟩ := serve_open f.data hd evs (wavPlayer_play initOk s) _ p1 hp hr
  have hs0 := streamCopied_append s (wavPlayer_play initOk s) _ p2
  have hstream : streamCopied (serve evs (wavPlayer_play initOk s))
      = streamCopied s ++ f.data.take (4096 + 2048 * evs.length) := by
    rw [i4, hs0, List.append_assoc]
    congr 1
    by_cases hc : 4096 ≤ f.data.length
    · have : min 4096 f.data.length = 4096 := by omega
      rw [this, ← List.take_add]
    · have h1 : f.data.length ≤ 4096 := by omega
      have h2 : f.data.length ≤ 4096 + 2048 * evs.length := by omega
      have h3 : f.data.length ≤ min 4096 f.data.length := by omega
      rw [List.take_of_length_le h1, List.take_of_length_le h2, List.drop_of_length_le h3]
      simp
  have hiff : evs ≠ [] →
      ((serve evs (wavPlayer_play initOk s)).playerControlSM = PLAYER_CONTROL_EndOfFile
        ↔ s.fileLength ≤ 4096 + 2048 * evs.length) := by
    intro hne
    rw [i5 hne]
    omega
  refine ⟨hstream, hiff, ?_⟩
  intro hne heof
  have hle : f.data.length ≤ 4096 + 2048 * evs.length := by
    have := (hiff hne).1 heof
    omega
  have hfull : streamCopied (serve evs (wavPlayer_play initOk s)) = streamCopied s ++ f.data := by
    rw [hstream, List.take_of_length_le hle]
  refine ⟨?_, hfull⟩
  rw [bytesCopied_eq, bytesCopied_eq, hfull, List.length_append, hlen]

/-- Witness of C3: a file of 5000 bytes, one notification. -/
theorem play_then_serve_copies_payload_witness :
    (Player.withTrack (List.replicate 5000 7) 5000).wavFile
        = some (FIL.mk (List.replicate 5000 7) 0)
    ∧ (FIL.mk (List.replicate 5000 7) 0).data.length
        = (Player.withTrack (List.replicate 5000 7) 5000).fileLength
    ∧ (Player.withTrack (List.replicate 5000 7) 5000).fileLength < 4294967296
    ∧ (serve [Notification.txCplt]
          (wavPlayer_play true (Player.withTrack (List.replicate 5000 7) 5000))).playerControlSM
        = PLAYER_CONTROL_EndOfFile
    ∧ bytesCopied (serve [Notification.txCplt]
          (wavPlayer_play true (Player.withTrack (List.replicate 5000 7) 5000)))
        = bytesCopied (Player.withTrack (List.replicate 5000 7) 5000)
          + (Player.withTrack (List.replicate 5000 7) 5000).fileLength :=
  have hlen : (FIL.mk (List.replicate 5000 7) 0).data.length
      = (Player.withTrack (List.replicate 5000 7) 5000).fileLength :=
    List.length_replicate 5000 7
  have hlt : (Player.withTrack (List.replicate 5000 7) 5000).fileLength < 4294967296 :=
    show 5000 < 4294967296 by decide
  have h := play_then_serve_copies_payload (Player.withTrack (List.replicate 5000 7) 5000)
    (FIL.mk (List.replicate 5000 7) 0) true [Notification.txCplt] rfl hlen hlt
  have heof := (h.2.1 (List.cons_ne_nil _ _)).2 (show 5000 ≤ 4096 + 2048 * 1 by decide)
  ⟨rfl, hlen, hlt, heof, (h.2.2 (List.cons_ne_nil _ _) heof).1⟩

/-- Claim C4 (Scenario A): with a stored payload length of 10000 and a file of 10000 bytes,
wavPlayer_play copies 4096 bytes and leaves 5904 remaining; the transfer-complete notification
and a proceed refill 2048 bytes and leave 3856; the half-complete notification and a proceed
refill 2048 bytes and leave 1808; the next notification (either kind) and a proceed refill
1808 bytes, leave 0 remaining and the state PLAYER_CONTROL_EndOfFile with the transfer still
running; the following proceed stops the transport and is_wavPlayer_finished_Playing
returns true. -/
theorem scenario_A (s : Player) (f : FIL) (initOk : Bool) (ev : Notification)
    (hfile : s.wavFile = some f) (hlen : f.data.length = 10000)
    (hL : s.fileLength = 10000) :
    (wavPlayer_play initOk s).player_bytes_read = 4096
    ∧ (wavPlayer_play initOk s).audioRemainSize = 5904
    ∧ (serve [Notification.txCplt] (wavPlayer_play initOk s)).player_bytes_read = 2048
    ∧ (serve [Notification.txCplt] (wavPlayer_play initOk s)).audioRemainSize = 3856
    ∧ (serve [Notification.txCplt, Notification.txHalfCplt]
          (wavPlayer_play initOk s)).player_bytes_read = 2048
    ∧ (serve [Notification.txCplt, Notification.txHalfCplt]
          (wavPlayer_play initOk s)).audioRemainSize = 1808
    ∧ (serve [Notification.txCplt, Notification.txHalfCplt, ev]
          (wavPlayer_play initOk s)).player_bytes_read = 1808
    ∧ (serve [Notification.txCplt, Notification.txHalfCplt, ev]
          (wavPlayer_play initOk s)).audioRemainSize = 0
    ∧ (serve [Notification.txCplt, Notification.txHalfCplt, ev]
          (wavPlayer_play initOk s)).playerControlSM = PLAYER_CONTROL_EndOfFile
    ∧ (serve [Notification.txCplt, Notification.txHalfCplt, ev]
          (wavPlayer_play initOk s)).dma = DmaState.running
    ∧ transportStopped (wavPlayer_proceed
        (serve [Notification.txCplt, Notification.txHalfCplt, ev] (wavPlayer_play initOk s)))
    ∧ is_wavPlayer_finished_Playing (wavPlayer_proceed
        (serve [Notification.txCplt, Notification.txHalfCplt, ev] (wavPlayer_play initOk s)))
        = true := by
  obtain ⟨p1, -, -, p4, p5⟩ := play_open initOk s f hfile
  obtain ⟨pd, -, -⟩ := play_dma initOk s
  rw [hlen] at p1 p5
  rw [hL, hlen] at p4
  have p4' : (wavPlayer_play initOk s).audioRemainSize = 5904 := by rw [p4]; decide
  have p1' : (wavPlayer_play initOk s).wavFile = some ⟨f.data, 4096⟩ := by rw [p1]; rfl
  obtain ⟨a1, a2, a3, -, a5⟩ := step_open Notification.txCplt _ f.data 4096 p1'
  rw [hlen] at a1 a2 a3
  rw [p4'] at a3
  have a3' : (wavPlayer_proceed (Notification.txCplt.deliver (wavPlayer_play initOk s))).audioRemainSize
      = 3856 := by rw [a3]; decide
  obtain ⟨b1, b2, b3, -, b5⟩ := step_open Notification.txHalfCplt _ f.data _ a1
  rw [hlen] at b1 b2 b3
  rw [a3'] at b3
  have b3' : (wavPlayer_proceed (Notification.txHalfCplt.deliver
      (wavPlayer_proceed (Notification.txCplt.deliver (wavPlayer_play initOk s))))).audioRemainSize
      = 1808 := by rw [b3]; decide
  obtain ⟨c1, c2, c3, c4, c5⟩ := step_open ev _ f.data _ b1
  rw [hlen] at c1 c2
  rw [b3'] at c3 c4
  obtain ⟨t1, -, t3, -⟩ := teardown_effects _ c4
  simp only [serve]
  exact ⟨p5, p4', a2, a3', b2, b3', c2, c3, c4, by rw [c5, b5, a5, pd], t1, t3⟩

/-- Witness of C4: a file of 10000 bytes. -/
theorem scenario_A_witness :
    (Player.withTrack (List.replicate 10000 7) 10000).wavFile
        = some (FIL.mk (List.replicate 10000 7) 0)
    ∧ (FIL.mk (List.replicate 10000 7) 0).data.length = 10000
    ∧ (Player.withTrack (List.replicate 10000 7) 10000).fileLength = 10000
    ∧ (serve [Notification.txCplt, Notification.txHalfCplt, Notification.txCplt]
          (wavPlayer_play true
            (Player.withTrack (List.replicate 10000 7) 10000))).player_bytes_read = 1808
    ∧ is_wavPlayer_finished_Playing (wavPlayer_proceed
        (serve [Notification.txCplt, Notification.txHalfCplt, Notification.txCplt]
          (wavPlayer_play true (Player.withTrack (List.replicate 10000 7) 10000))))
        = true :=
  have hlen : (FIL.mk (List.replicate 10000 7) 0).data.length = 10000 :=
    List.length_replicate 10000 7
  have h := scenario_A (Player.withTrack (List.replicate 10000 7) 10000)
    (FIL.mk (List.replicate 10000 7) 0) true Notification.txCplt rfl hlen rfl
  ⟨rfl, hlen, rfl, h.2.2.2.2.2.2.1, h.2.2.2.2.2.2.2.2.2.2.2⟩

/-- Where the two refills write: after HAL_I2S_TxCpltCallback (for SPI3) the next
wavPlayer_proceed performs one read of at most 2048 bytes, stores it from buffer offset 0 and
leaves every offset from 2048 on as it was; after HAL_I2S_TxHalfCpltCallback the next
wavPlayer_proceed performs one read of at most 2048 bytes, stores it from buffer offset 2048
and leaves every offset below 2048 (and every offset from 4096 on) as it was. -/
theorem refill_offsets (s : Player) :
    ((wavPlayer_proceed (HAL_I2S_TxCpltCallback SPI_Instance.SPI3 s)).fills
        = s.fills ++ [Fill.mk 0 (AUDIO_BUFFER_SIZE / 2) (f_read s.wavFile (AUDIO_BUFFER_SIZE / 2)).2]
      ∧ (f_read s.wavFile (AUDIO_BUFFER_SIZE / 2)).2.length ≤ AUDIO_BUFFER_SIZE / 2
      ∧ (∀ i, i < (f_read s.wavFile (AUDIO_BUFFER_SIZE / 2)).2.length →
          (wavPlayer_proceed (HAL_I2S_TxCpltCallback SPI_Instance.SPI3 s)).audioBuffer i
            = (f_read s.wavFile (AUDIO_BUFFER_SIZE / 2)).2.getD i 0)
      ∧ (∀ i, AUDIO_BUFFER_SIZE / 2 ≤ i →
          (wavPlayer_proceed (HAL_I2S_TxCpltCallback SPI_Instance.SPI3 s)).audioBuffer i
            = s.audioBuffer i))
    ∧ ((wavPlayer_proceed (HAL_I2S_TxHalfCpltCallback SPI_Instance.SPI3 s)).fills
        = s.fills ++ [Fill.mk (AUDIO_BUFFER_SIZE / 2) (AUDIO_BUFFER_SIZE / 2)
            (f_read s.wavFile (AUDIO_BUFFER_SIZE / 2)).2]
      ∧ (∀ i, i < (f_read s.wavFile (AUDIO_BUFFER_SIZE / 2)).2.length →
          (wavPlayer_proceed (HAL_I2S_TxHalfCpltCallback SPI_Instance.SPI3 s)).audioBuffer
              (AUDIO_BUFFER_SIZE / 2 + i)
            = (f_read s.wavFile (AUDIO_BUFFER_SIZE / 2)).2.getD i 0)
      ∧ (∀ i, i < AUDIO_BUFFER_SIZE / 2 →
          (wavPlayer_proceed (HAL_I2S_TxHalfCpltCallback SPI_Instance.SPI3 s)).audioBuffer i
            = s.audioBuffer i)
      ∧ (∀ i, AUDIO_BUFFER_SIZE ≤ i →
          (wavPlayer_proceed (HAL_I2S_TxHalfCpltCallback SPI_Instance.SPI3 s)).audioBuffer i
            = s.audioBuffer i)) := by
  have hlen := f_read_length_le s.wavFile 2048
  have e1 : wavPlayer_proceed (HAL_I2S_TxCpltCallback SPI_Instance.SPI3 s)
      = refill 0 (HAL_I2S_TxCpltCallback SPI_Instance.SPI3 s) :=
    proceed_HalfBuffer _ (by simp [HAL_I2S_TxCpltCallback])
  have e2 : wavPlayer_proceed (HAL_I2S_TxHalfCpltCallback SPI_Instance.SPI3 s)
      = refill 2048 (HAL_I2S_TxHalfCpltCallback SPI_Instance.SPI3 s) :=
    proceed_FullBuffer _ (by simp [HAL_I2S_TxHalfCpltCallback])
  obtain ⟨b1, f1⟩ := refill_buffer 0 (HAL_I2S_TxCpltCallback SPI_Instance.SPI3 s)
  obtain ⟨b2, f2⟩ := refill_buffer 2048 (HAL_I2S_TxHalfCpltCallback SPI_Instance.SPI3 s)
  have w1 : (HAL_I2S_TxCpltCallback SPI_Instance.SPI3 s).wavFile = s.wavFile := by
    simp [HAL_I2S_TxCpltCallback]
  have w2 : (HAL_I2S_TxHalfCpltCallback SPI_Instance.SPI3 s).wavFile = s.wavFile := by
    simp [HAL_I2S_TxHalfCpltCallback]
  have g1 : (HAL_I2S_TxCpltCallback SPI_Instance.SPI3 s).audioBuffer = s.audioBuffer := by
    simp [HAL_I2S_TxCpltCallback]
  have g2 : (HAL_I2S_TxHalfCpltCallback SPI_Instance.SPI3 s).audioBuffer = s.audioBuffer := by
    simp [HAL_I2S_TxHalfCpltCallback]
  have h1 : (HAL_I2S_TxCpltCallback SPI_Instance.SPI3 s).fills = s.fills := by
    simp [HAL_I2S_TxCpltCallback]
  have h2 : (HAL_I2S_TxHalfCpltCallback SPI_Instance.SPI3 s).fills = s.fills := by
    simp [HAL_I2S_TxHalfCpltCallback]
  rw [w1, g1] at b1
  rw [w1, h1] at f1
  rw [w2, g2] at b2
  rw [w2, h2] at f2
  rw [e1, e2, b1, b2, f1, f2]
  have hA : AUDIO_BUFFER_SIZE / 2 = 2048 := by decide
  have hB : AUDIO_BUFFER_SIZE = 4096 := rfl
  rw [hA, hB]
  refine ⟨⟨rfl, hlen, ?_, ?_⟩, ⟨rfl, ?_, ?_, ?_⟩⟩
  · intro i hi
    have := store_inside s.audioBuffer 0 _ i hi
    simpa using this
  · intro i hi
    exact store_outside _ _ _ _ (Or.inr (by omega))
  · intro i hi
    exact store_inside s.audioBuffer 2048 _ i hi
  · intro i hi
    exact store_outside _ _ _ _ (Or.inl hi)
  · intro i hi
    exact store_outside _ _ _ _ (Or.inr (by omega))

/-- Claim C5, the code at a failing input: a track of 10000 bytes is playing. When the
transfer-complete notification arrives the transfer has just finished the second half of the
buffer (offsets 2048..4095) and starts again at offset 0; the next wavPlayer_proceed reads
2048 bytes to offset 0, the half now being transmitted, and leaves the vacated half as it
was. When the half-complete notification arrives the first half is the vacated one; the next
wavPlayer_proceed reads 2048 bytes to offset 2048 and leaves the first half as it was. For
neither notification is the refilled half the vacated one. -/
theorem refill_misses_vacated_half :
    (∀ ev : Notification, ev.target ≠ ev.vacated)
    ∧ Notification.txCplt.vacated = 2048
    ∧ (wavPlayer_proceed (HAL_I2S_TxCpltCallback SPI_Instance.SPI3
        (wavPlayer_play true (Player.withTrack (List.replicate 10000 7) 10000)))).fills.map
          (fun f => (f.offset, f.bytes.length)) = [(0, 4096), (0, 2048)]
    ∧ (∀ i, 2048 ≤ i →
        (wavPlayer_proceed (HAL_I2S_TxCpltCallback SPI_Instance.SPI3
          (wavPlayer_play true (Player.withTrack (List.replicate 10000 7) 10000)))).audioBuffer i
        = (wavPlayer_play true
            (Player.withTrack (List.replicate 10000 7) 10000)).audioBuffer i)
    ∧ Notification.txHalfCplt.vacated = 0
    ∧ (wavPlayer_proceed (HAL_I2S_TxHalfCpltCallback SPI_Instance.SPI3
        (wavPlayer_play true (Player.withTrack (List.replicate 10000 7) 10000)))).fills.map
          (fun f => (f.offset, f.bytes.length)) = [(0, 4096), (2048, 2048)]
    ∧ (∀ i, i < 2048 →
        (wavPlayer_proceed (HAL_I2S_TxHalfCpltCallback SPI_Instance.SPI3
          (wavPlayer_play true (Player.withTrack (List.replicate 10000 7) 10000)))).audioBuffer i
        = (wavPlayer_play true
            (Player.withTrack (List.replicate 10000 7) 10000)).audioBuffer i) := by
  obtain ⟨⟨c1, -, -, c4⟩, ⟨h1, -, h3, -⟩⟩ := refill_offsets
    (wavPlayer_play true (Player.withTrack (List.replicate 10000 7) 10000))
  obtain ⟨p1, p2, -, -, -⟩ := play_open true (Player.withTrack (List.replicate 10000 7) 10000)
    (FIL.mk (List.replicate 10000 7) 0) rfl
  have hA : AUDIO_BUFFER_SIZE / 2 = 2048 := by decide
  rw [hA] at c1 c4 h1 h3
  have hchunk : (f_read (wavPlayer_play true
      (Player.withTrack (List.replicate 10000 7) 10000)).wavFile 2048).2.length = 2048 := by
    rw [p1]
    simp only [f_read, List.length_take, List.length_drop, List.length_replicate]
    decide
  have hfirst : (List.take 4096 (FIL.mk (List.replicate 10000 7) 0).data).length = 4096 := by
    simp only [List.length_take, List.length_replicate]
    decide
  have hf0 : (Player.withTrack (List.replicate 10000 7) 10000).fills = [] := rfl
  refine ⟨by intro ev; cases ev <;> decide, by decide, ?_, c4, by decide, ?_, h3⟩
  · rw [c1, p2, hf0]
    simp only [List.nil_append, List.map_append, List.map_cons, List.map_nil, hchunk, hfirst,
      List.singleton_append]
  · rw [h1, p2, hf0]
    simp only [List.nil_append, List.map_append, List.map_cons, List.map_nil, hchunk, hfirst,
      List.singleton_append]

/-- Claim C6: the state machine variable is a single-slot mailbox. For every state and every two
completion notifications delivered before wavPlayer_proceed runs, the state after the second
is the state the second alone would leave; the following proceed performs exactly one read,
stored at the target of the second notification; one more proceed without a new notification
adds no read and leaves the buffer as it is. -/
theorem mailbox_single_slot (s : Player) (n1 n2 : Notification) :
    n2.deliver (n1.deliver s) = n2.deliver s
    ∧ (n2.deliver (n1.deliver s)).playerControlSM =
        (match n2 with
          | Notification.txCplt => PLAYER_CONTROL_HalfBuffer
          | Notification.txHalfCplt => PLAYER_CONTROL_FullBuffer)
    ∧ (wavPlayer_proceed (n2.deliver (n1.deliver s))).fills =
        s.fills ++ [Fill.mk n2.target (AUDIO_BUFFER_SIZE / 2)
          (f_read s.wavFile (AUDIO_BUFFER_SIZE / 2)).2]
    ∧ (wavPlayer_proceed (n2.deliver (n1.deliver s))).audioBuffer =
        store s.audioBuffer n2.target (f_read s.wavFile (AUDIO_BUFFER_SIZE / 2)).2
    ∧ (wavPlayer_proceed (wavPlayer_proceed (n2.deliver (n1.deliver s)))).fills =
        (wavPlayer_proceed (n2.deliver (n1.deliver s))).fills
    ∧ (wavPlayer_proceed (wavPlayer_proceed (n2.deliver (n1.deliver s)))).audioBuffer =
        (wavPlayer_proceed (n2.deliver (n1.deliver s))).audioBuffer := by
  have hover : n2.deliver (n1.deliver s) = n2.deliver s := by
    cases n1 <;> cases n2 <;> rfl
  obtain ⟨hp, hw, hf, -, -⟩ := proceed_deliver n2 s
  have hb : (n2.deliver s).audioBuffer = s.audioBuffer := by cases n2 <;> rfl
  obtain ⟨r1, r2⟩ := refill_buffer n2.target (n2.deliver s)
  obtain ⟨q1, q2⟩ := proceed_after_refill_no_fill n2.target (n2.deliver s)
  have hA : AUDIO_BUFFER_SIZE / 2 = 2048 := by decide
  rw [hover, hp, hA]
  rw [hw, hb] at r1
  rw [hw, hf] at r2
  refine ⟨rfl, ?_, r2, r1, q1, q2⟩
  cases n2 <;> rfl

/-- Claim C7: in every engine state whose state machine is in PLAYER_CONTROL_EndOfFile, one
call of wavPlayer_proceed stops the transport, closes the stream, leaves
is_wavPlayer_finished_Playing returning true and leaves the state machine in
PLAYER_CONTROL_Idle. -/
theorem proceed_in_EndOfFile_tears_down (s : Player)
    (h : s.playerControlSM = PLAYER_CONTROL_EndOfFile) :
    transportStopped (wavPlayer_proceed s)
    ∧ (wavPlayer_proceed s).wavFile = none
    ∧ is_wavPlayer_finished_Playing (wavPlayer_proceed s) = true
    ∧ (wavPlayer_proceed s).playerControlSM = PLAYER_CONTROL_Idle :=
  teardown_effects s h

/-- Witness of C7: the booted player with the state machine put in PLAYER_CONTROL_EndOfFile. -/
theorem proceed_in_EndOfFile_tears_down_witness :
    ({ Player.boot with playerControlSM := PLAYER_CONTROL_EndOfFile } : Player).playerControlSM
        = PLAYER_CONTROL_EndOfFile
    ∧ transportStopped (wavPlayer_proceed
        { Player.boot with playerControlSM := PLAYER_CONTROL_EndOfFile })
    ∧ is_wavPlayer_finished_Playing (wavPlayer_proceed
        { Player.boot with playerControlSM := PLAYER_CONTROL_EndOfFile }) = true :=
  have h := proceed_in_EndOfFile_tears_down
    { Player.boot with playerControlSM := PLAYER_CONTROL_EndOfFile } rfl
  ⟨rfl, h.1, h.2.2.1⟩

/-- Claim C8: is_wavPlayer_finished_Playing returns false right after wavPlayer_play, and still
returns false after any sequence of completion callbacks, pause, resume, setVolume and proceed
calls in which no proceed starts in PLAYER_CONTROL_EndOfFile (wavPlayer_stop is not among
the calls). -/
theorem finished_false_while_playing (initOk : Bool) (s : Player) (ops : List Op)
    (h : proceedAvoidsEndOfFile ops (wavPlayer_play initOk s) = true) :
    is_wavPlayer_finished_Playing (wavPlayer_play initOk s) = false
    ∧ is_wavPlayer_finished_Playing (run ops (wavPlayer_play initOk s)) = false := by
  have hp := (play_dma initOk s).2.1
  refine ⟨hp, ?_⟩
  unfold is_wavPlayer_finished_Playing
  rw [run_keeps_finished ops _ h, hp]

/-- Witness of C8: a refill, a pause and resume, a volume change and a second refill on a
file of 10000 bytes. -/
theorem finished_false_while_playing_witness :
    proceedAvoidsEndOfFile
        [Op.txCplt SPI_Instance.SPI3, Op.proceed, Op.pause, Op.resume, Op.setVolume 200,
          Op.txHalfCplt SPI_Instance.SPI3, Op.proceed]
        (wavPlayer_play true (Player.withTrack (List.replicate 10000 7) 10000)) = true
    ∧ is_wavPlayer_finished_Playing (run
        [Op.txCplt SPI_Instance.SPI3, Op.proceed, Op.pause, Op.resume, Op.setVolume 200,
          Op.txHalfCplt SPI_Instance.SPI3, Op.proceed]
        (wavPlayer_play true (Player.withTrack (List.replicate 10000 7) 10000))) = false :=
  have hg : proceedAvoidsEndOfFile
        [Op.txCplt SPI_Instance.SPI3, Op.proceed, Op.pause, Op.resume, Op.setVolume 200,
          Op.txHalfCplt SPI_Instance.SPI3, Op.proceed]
        (wavPlayer_play true (Player.withTrack (List.replicate 10000 7) 10000)) = true := by
    decide
  ⟨hg, (finished_false_while_playing true _ _ hg).2⟩

/-- Counterexample to C9 as stated: a file of 4 bytes opens, the header read delivers 4 bytes,
fewer than the 44 of the header, and wavPlayer_openFile returns true. -/
theorem openFile_short_header_counterexample :
    Disk.single "Song1.wav" [82, 73, 70, 70] "Song1.wav" = some [82, 73, 70, 70]
    ∧ (f_read (f_open (Disk.single "Song1.wav" [82, 73, 70, 70]) "Song1.wav").1
          WAV_HEADER_SIZE).2.length = 4
    ∧ 4 < WAV_HEADER_SIZE
    ∧ (wavPlayer_openFile (Disk.single "Song1.wav" [82, 73, 70, 70]) (fun _ => 0)
          "Song1.wav" Player.boot).1 = true := by
  refine ⟨by simp [Disk.single], ?_, by decide, ?_⟩
  · simp [f_open, f_read, Disk.single, WAV_HEADER_SIZE]
  · simp [wavPlayer_openFile, f_open, Disk.single]

/-- Claim C9, amended: wavPlayer_openFile returns true exactly when the storage open succeeds,
however many header bytes the read delivers (also fewer than 44), and false exactly when the
open fails. -/
theorem openFile_result_is_open_result (disk : Disk) (wavHeader0 : Nat → Nat)
    (filePath : String) (s : Player) :
    (wavPlayer_openFile disk wavHeader0 filePath s).1 = (disk filePath).isSome := by
  unfold wavPlayer_openFile f_open
  cases disk filePath <;> simp

/-- Claim C10: when the storage open fails, wavPlayer_openFile returns false and leaves the
stored payload length, the sample rate, the remaining-byte counter, the state machine and
the finished flag as they were. -/
theorem openFile_failure_frame (disk : Disk) (wavHeader0 : Nat → Nat)
    (filePath : String) (s : Player) (h : disk filePath = none) :
    (wavPlayer_openFile disk wavHeader0 filePath s).1 = false
    ∧ (wavPlayer_openFile disk wavHeader0 filePath s).2.fileLength = s.fileLength
    ∧ (wavPlayer_openFile disk wavHeader0 filePath s).2.samplingFreq = s.samplingFreq
    ∧ (wavPlayer_openFile disk wavHeader0 filePath s).2.audioRemainSize = s.audioRemainSize
    ∧ (wavPlayer_openFile disk wavHeader0 filePath s).2.playerControlSM = s.playerControlSM
    ∧ (wavPlayer_openFile disk wavHeader0 filePath s).2.is_song_finished = s.is_song_finished := by
  unfold wavPlayer_openFile f_open
  simp [h]

/-- Witness of C10: a disk without files. -/
theorem openFile_failure_frame_witness :
    Disk.empty "Song12.wav" = none
    ∧ (wavPlayer_openFile Disk.empty (fun _ => 0) "Song12.wav" Player.boot).1 = false
    ∧ (wavPlayer_openFile Disk.empty (fun _ => 0) "Song12.wav" Player.boot).2.is_song_finished
        = Player.boot.is_song_finished :=
  have h := openFile_failure_frame Disk.empty (fun _ => 0) "Song12.wav" Player.boot rfl
  ⟨rfl, h.1, h.2.2.2.2.2⟩


/-! ## Lemmas about the facade -/

/-- The canonical file is 44 header bytes longer than its payload. -/
theorem riffFile_length (sampleRate : Nat) (payload : List Nat) :
    (riffFile sampleRate payload).length = 44 + payload.length := by
  simp [riffFile, le32Bytes]
  omega

/-- A successful open, field by field: the read pointer stands behind the header bytes read and
the two stored fields come from the header buffer. -/
theorem openFile_ok (disk : Disk) (wavHeader0 : Nat → Nat) (filePath : String) (s : Player)
    (bytes : List Nat) (h : disk filePath = some bytes) :
    wavPlayer_openFile disk wavHeader0 filePath s =
      (true, { s with
        wavFile := some ⟨bytes, (bytes.take 44).length⟩
        fileLength := le32 (store wavHeader0 0 (bytes.take 44)) 4
        samplingFreq := le32 (store wavHeader0 0 (bytes.take 44)) 24 }) := by
  simp [wavPlayer_openFile, f_open, f_read, h, WAV_HEADER_SIZE]

/-- A region filled from offset 0 with the first `n` bytes of a list holds the list's bytes. -/
theorem store_take_getD (mem : Nat → Nat) (bytes : List Nat) (n i : Nat) (hi : i < n)
    (hn : n ≤ bytes.length) : store mem 0 (bytes.take n) i = bytes.getD i 0 := by
  have hlen : (bytes.take n).length = n := by simp [List.length_take, hn]
  unfold store
  rw [if_pos (by omega)]
  simp only [Nat.sub_zero, List.getD_eq_getElem?_getD, List.getElem?_take]
  rw [if_pos hi]

/-- Every byte of a list of bytes is below 256, also the default past its end. -/
theorem getD_lt (bytes : List Nat) (hb : ∀ b ∈ bytes, b < 256) (i : Nat) :
    bytes.getD i 0 < 256 := by
  rw [List.getD_eq_getElem?_getD]
  by_cases hi : i < bytes.length
  · rw [List.getElem?_eq_getElem hi]
    exact hb _ (List.getElem_mem _)
  · rw [List.getElem?_eq_none (by omega)]
    decide

/-- The buffer and the codec after `wavPlayer_play` on an open file. -/
theorem play_buffer (initOk : Bool) (s : Player) (f : FIL) (h : s.wavFile = some f) :
    (wavPlayer_play initOk s).audioBuffer = store s.audioBuffer 0 (f.data.take 4096)
    ∧ (wavPlayer_play initOk s).codec = CS43_start s.codec := by
  unfold wavPlayer_play audio_adjust_freq audio_play
  simp only [f_lseek, f_read, AUDIO_BUFFER_SIZE]
  split_ifs <;>
    simp [(audio_clock_config_frame _ _).1, (audio_clock_config_frame _ _).2.2.2.2.1,
      (audio_clock_config_frame _ _).2.2.2.2.2.2.2.1, h]

/-- The one file of a single-file disk opens. -/
theorem single_hit (name : String) (bytes : List Nat) : Disk.single name bytes name = some bytes := by
  unfold Disk.single
  rw [if_pos rfl]

/-- A store at offset 0 puts the chunk at the start of the region. -/
theorem store_getD (mem : Nat → Nat) (chunk : List Nat) (i : Nat) (hi : i < chunk.length) :
    store mem 0 chunk i = chunk.getD i 0 := by
  have := store_inside mem 0 chunk i hi
  simpa using this

/-- The first fill after a successful open reads from the start of the file. -/
theorem play_after_open (disk : Disk) (wavHeader0 : Nat → Nat) (filePath : String)
    (s : Player) (bytes : List Nat) (initOk : Bool) (h : disk filePath = some bytes) :
    (wavPlayer_play initOk (wavPlayer_openFile disk wavHeader0 filePath s).2).fills
        = s.fills ++ [Fill.mk 0 4096 (bytes.take 4096)]
    ∧ (wavPlayer_play initOk (wavPlayer_openFile disk wavHeader0 filePath s).2).audioBuffer
        = store s.audioBuffer 0 (bytes.take 4096) := by
  have ho := openFile_ok disk wavHeader0 filePath s bytes h
  have hw : (wavPlayer_openFile disk wavHeader0 filePath s).2.wavFile
      = some ⟨bytes, (bytes.take 44).length⟩ := by rw [ho]
  obtain ⟨-, p2, -, -, -⟩ := play_open initOk _ _ hw
  obtain ⟨b1, -⟩ := play_buffer initOk _ _ hw
  rw [p2, b1, ho]
  exact ⟨rfl, rfl⟩

/-- After `CS43_start` the power control register reads 0x9E. -/
theorem read_after_start (c : Codec) :
    CS43_read_register POWER_CONTROL1 (CS43_start c) = 0x9E := by
  simp [CS43_start, CS43_write_register, CS43_read_register, POWER_CONTROL1]

/-- What `wavPlayer_play` does in every state: the codec is started and the remaining-byte
counter is the 32-bit difference of the stored length and the bytes read. -/
theorem play_any (initOk : Bool) (s : Player) :
    (wavPlayer_play initOk s).codec = CS43_start s.codec
    ∧ (wavPlayer_play initOk s).audioRemainSize
        = sub32 s.fileLength (wavPlayer_play initOk s).player_bytes_read
    ∧ (wavPlayer_play initOk s).player_bytes_read ≤ 4096
    ∧ (wavPlayer_play initOk s).fileLength = s.fileLength := by
  have hle := f_read_length_le (f_lseek s.wavFile 0) 4096
  unfold wavPlayer_play audio_adjust_freq audio_play
  simp only [AUDIO_BUFFER_SIZE]
  split_ifs <;>
    simp [(audio_clock_config_frame _ _).1, (audio_clock_config_frame _ _).2.2.1,
      (audio_clock_config_frame _ _).2.2.2.2.2.2.2.1, hle]

/-- One more fill adds its byte count to the total. -/
theorem bytesCopied_append (t u : Player) (x : Fill) (h : u.fills = t.fills ++ [x]) :
    bytesCopied u = bytesCopied t + x.bytes.length := by
  simp [bytesCopied, h]

/-- The fields `wavPlayer_openFile` never assigns. -/
theorem openFile_frame (disk : Disk) (wavHeader0 : Nat → Nat) (filePath : String)
    (s : Player) :
    (wavPlayer_openFile disk wavHeader0 filePath s).2.is_song_finished = s.is_song_finished
    ∧ (wavPlayer_openFile disk wavHeader0 filePath s).2.audioRemainSize = s.audioRemainSize
    ∧ (wavPlayer_openFile disk wavHeader0 filePath s).2.playerControlSM = s.playerControlSM
    ∧ (wavPlayer_openFile disk wavHeader0 filePath s).2.fills = s.fills := by
  unfold wavPlayer_openFile f_open
  cases disk filePath <;> simp

/-- The counter and the byte total after `wavPlayer_play` and `k` answered notifications, on a
file that holds exactly the stored length. -/
theorem play_serve_exact (s : Player) (f : FIL) (initOk : Bool) (evs : List Notification)
    (hfile : s.wavFile = some f) (hlen : f.data.length = s.fileLength)
    (h32 : s.fileLength < 4294967296) :
    (serve evs (wavPlayer_play initOk s)).audioRemainSize
        = s.fileLength - min s.fileLength (4096 + 2048 * evs.length)
    ∧ bytesCopied (serve evs (wavPlayer_play initOk s))
        = bytesCopied s + min s.fileLength (4096 + 2048 * evs.length) := by
  obtain ⟨p1, p2, -, p4, -⟩ := play_open initOk s f hfile
  have hd : f.data.length < 4294967296 := by omega
  have hp : min 4096 f.data.length ≤ f.data.length := by omega
  have hr : (wavPlayer_play initOk s).audioRemainSize
      = f.data.length - min 4096 f.data.length := by
    rw [p4]; unfold sub32; omega
  obtain ⟨-, i2, -, i4, -⟩ := serve_open f.data hd evs (wavPlayer_play initOk s) _ p1 hp hr
  have hb := bytesCopied_append s (wavPlayer_play initOk s) _ p2
  refine ⟨by rw [i2]; omega, ?_⟩
  rw [bytesCopied_eq, i4, List.length_append, ← bytesCopied_eq, hb]
  simp only [List.length_take, List.length_drop]
  omega

/-- A refill in any state: the byte count, the counter, the file object and the untouched
transport and flag. -/
theorem refill_any (off : Nat) (t : Player) :
    (refill off t).player_bytes_read = (f_read t.wavFile 2048).2.length
    ∧ (refill off t).audioRemainSize =
        (if t.audioRemainSize > 2048 then
          sub32 t.audioRemainSize (f_read t.wavFile 2048).2.length else 0)
    ∧ (refill off t).wavFile = (f_read t.wavFile 2048).1
    ∧ (refill off t).codec = t.codec
    ∧ (refill off t).dma = t.dma
    ∧ (refill off t).is_song_finished = t.is_song_finished := by
  unfold refill
  simp only [AUDIO_BUFFER_SIZE]
  split_ifs <;> simp

/-- A stopped transport, a closed file and a set finished flag survive `wavPlayer_proceed`. -/
theorem stopped_closed_finished_proceed (t : Player)
    (h : transportStopped t ∧ t.wavFile = none ∧ t.is_song_finished = true) :
    transportStopped (wavPlayer_proceed t) ∧ (wavPlayer_proceed t).wavFile = none
      ∧ (wavPlayer_proceed t).is_song_finished = true := by
  obtain ⟨⟨hd, hc⟩, hw, hf⟩ := h
  have hr : ∀ off, transportStopped (refill off t) ∧ (refill off t).wavFile = none
      ∧ (refill off t).is_song_finished = true := by
    intro off
    obtain ⟨-, -, r3, r4, r5, r6⟩ := refill_any off t
    refine ⟨⟨by rw [r5, hd], by rw [r4, hc]⟩, ?_, by rw [r6, hf]⟩
    rw [r3, hw]
    rfl
  cases hsm : t.playerControlSM with
  | PLAYER_CONTROL_Idle =>
    rw [proceed_Idle t hsm]
    exact ⟨⟨hd, hc⟩, hw, hf⟩
  | PLAYER_CONTROL_HalfBuffer =>
    rw [proceed_HalfBuffer t hsm]
    exact hr 0
  | PLAYER_CONTROL_FullBuffer =>
    rw [proceed_FullBuffer t hsm]
    exact hr _
  | PLAYER_CONTROL_EndOfFile =>
    obtain ⟨t1, t2, t3, -⟩ := teardown_effects t hsm
    exact ⟨t1, t2, t3⟩

/-- The effects of `wavPlayer_stop`. -/
theorem stop_effects (s : Player) :
    transportStopped (wavPlayer_stop s) ∧ (wavPlayer_stop s).wavFile = none
      ∧ (wavPlayer_stop s).is_song_finished = true
      ∧ (wavPlayer_stop s).playerControlSM = s.playerControlSM
      ∧ (wavPlayer_stop s).audioRemainSize = s.audioRemainSize :=
  ⟨⟨rfl, read_after_stop s.codec⟩, rfl, rfl, rfl, rfl⟩

/-- The state a refill ends in, and the one read it records. -/
theorem refill_sm (off : Nat) (t : Player) :
    (refill off t).playerControlSM =
      (if t.audioRemainSize > 2048 then PLAYER_CONTROL_Idle else PLAYER_CONTROL_EndOfFile)
    ∧ (refill off t).fills = t.fills ++ [Fill.mk off 2048 (f_read t.wavFile 2048).2] := by
  unfold refill
  simp only [AUDIO_BUFFER_SIZE]
  split_ifs <;> simp

/-- The fill and the byte count of `wavPlayer_play` in any state. -/
theorem play_fills_any (initOk : Bool) (s : Player) :
    (wavPlayer_play initOk s).fills
        = s.fills ++ [Fill.mk 0 4096 (f_read (f_lseek s.wavFile 0) 4096).2]
    ∧ (wavPlayer_play initOk s).player_bytes_read
        = (f_read (f_lseek s.wavFile 0) 4096).2.length := by
  unfold wavPlayer_play audio_adjust_freq audio_play
  simp only [AUDIO_BUFFER_SIZE]
  split_ifs <;>
    simp [(audio_clock_config_frame _ _).1, (audio_clock_config_frame _ _).2.1]

/-- A run of answered notifications whose last refill ends in `PLAYER_CONTROL_Idle` started
with more than 2048 bytes to account for and has kept the remaining-byte counter plus the
bytes copied. -/
theorem serve_idle_sum : ∀ (evs : List Notification) (t : Player),
    t.audioRemainSize < 4294967296 → evs ≠ [] →
    (serve evs t).playerControlSM = PLAYER_CONTROL_Idle →
    2048 < t.audioRemainSize
      ∧ (serve evs t).audioRemainSize + bytesCopied (serve evs t)
          = t.audioRemainSize + bytesCopied t := by
  intro evs
  induction evs with
  | nil => intro t _ hne; exact absurd rfl hne
  | cons ev evs ih =>
    intro t h32 _ hidle
    obtain ⟨hp, hw, hf, -, hr⟩ := proceed_deliver ev t
    obtain ⟨r1, r2, -, -, -, -⟩ := refill_any ev.target (ev.deliver t)
    obtain ⟨s1, s2⟩ := refill_sm ev.target (ev.deliver t)
    have hle := f_read_length_le t.wavFile 2048
    rw [hw] at r1 r2 s2
    rw [hr] at r2 s1
    rw [hf] at s2
    have hb := bytesCopied_append t (refill ev.target (ev.deliver t)) _ s2
    simp only at hb
    simp only [serve, hp] at hidle ⊢
    have hstep : 2048 < t.audioRemainSize →
        (refill ev.target (ev.deliver t)).audioRemainSize
            + bytesCopied (refill ev.target (ev.deliver t))
          = t.audioRemainSize + bytesCopied t := by
      intro hbig
      rw [r2, if_pos hbig, hb]
      unfold sub32
      omega
    have h32' : (refill ev.target (ev.deliver t)).audioRemainSize < 4294967296 := by
      rw [r2]
      unfold sub32
      split_ifs <;> omega
    by_cases he : evs = []
    · subst he
      simp only [serve] at hidle ⊢
      have hbig : 2048 < t.audioRemainSize := by
        by_contra hc
        rw [s1, if_neg hc] at hidle
        exact absurd hidle (by decide)
      exact ⟨hbig, hstep hbig⟩
    · obtain ⟨i1, i2⟩ := ih _ h32' he hidle
      have hbig : 2048 < t.audioRemainSize := by
        by_contra hc
        rw [r2, if_neg hc] at i1
        omega
      exact ⟨hbig, by rw [i2, hstep hbig]⟩

/-- On a file that holds exactly the stored payload length (below 2^32), the remaining-byte
counter plus the bytes copied since the call of wavPlayer_play equals the stored payload
length after wavPlayer_play and after every refill of a run of notifications each answered
by one wavPlayer_proceed, the refill that ends in PLAYER_CONTROL_EndOfFile included. -/
theorem remaining_plus_copied_exact_file (s : Player) (f : FIL) (initOk : Bool)
    (evs : List Notification)
    (hfile : s.wavFile = some f) (hlen : f.data.length = s.fileLength)
    (h32 : s.fileLength < 4294967296) :
    (wavPlayer_play initOk s).audioRemainSize + bytesCopied (wavPlayer_play initOk s)
        = s.fileLength + bytesCopied s
    ∧ (serve evs (wavPlayer_play initOk s)).audioRemainSize
          + bytesCopied (serve evs (wavPlayer_play initOk s))
        = s.fileLength + bytesCopied s
    ∧ (serve evs (wavPlayer_play initOk s)).fileLength = s.fileLength := by
  obtain ⟨a1, a2⟩ := play_serve_exact s f initOk [] hfile hlen h32
  obtain ⟨b1, b2⟩ := play_serve_exact s f initOk evs hfile hlen h32
  obtain ⟨p1, -, p3, p4, -⟩ := play_open initOk s f hfile
  have hd : f.data.length < 4294967296 := by omega
  have hr : (wavPlayer_play initOk s).audioRemainSize
      = f.data.length - min 4096 f.data.length := by
    rw [p4]; unfold sub32; omega
  obtain ⟨-, -, i3, -, -⟩ := serve_open f.data hd evs (wavPlayer_play initOk s) _ p1
    (by omega) hr
  simp only [serve, List.length_nil] at a1 a2
  refine ⟨by rw [a1, a2]; omega, by rw [b1, b2]; omega, by rw [i3, p3]⟩

/-! ## Header, first fill and bookkeeping -/

/-- Claim C11: when the open succeeds and the file has at least 44 bytes (the header read is
delivered in full), wavPlayer_openFile returns true, stores as payload length the little-endian
32-bit value of file bytes 4..7 and as sample rate the little-endian 32-bit value of file
bytes 24..27, whatever the other bytes are (chunk tags included) and whatever the local
header buffer held before. -/
theorem openFile_reads_header_fields (disk : Disk) (wavHeader0 : Nat → Nat)
    (filePath : String) (s : Player) (bytes : List Nat)
    (hopen : disk filePath = some bytes) (hfull : 44 ≤ bytes.length)
    (hbyte : ∀ b ∈ bytes, b < 256) :
    (wavPlayer_openFile disk wavHeader0 filePath s).1 = true
    ∧ (f_read (f_open disk filePath).1 WAV_HEADER_SIZE).2.length = 44
    ∧ (wavPlayer_openFile disk wavHeader0 filePath s).2.fileLength
        = bytes.getD 4 0 + 256 * bytes.getD 5 0 + 65536 * bytes.getD 6 0
          + 16777216 * bytes.getD 7 0
    ∧ (wavPlayer_openFile disk wavHeader0 filePath s).2.samplingFreq
        = bytes.getD 24 0 + 256 * bytes.getD 25 0 + 65536 * bytes.getD 26 0
          + 16777216 * bytes.getD 27 0 := by
  rw [openFile_ok disk wavHeader0 filePath s bytes hopen]
  have hg : ∀ i, i < 44 → store wavHeader0 0 (bytes.take 44) i = bytes.getD i 0 :=
    fun i hi => store_take_getD wavHeader0 bytes 44 i hi hfull
  have hm : ∀ i, bytes.getD i 0 % 256 = bytes.getD i 0 :=
    fun i => Nat.mod_eq_of_lt (getD_lt bytes hbyte i)
  refine ⟨rfl, ?_, ?_, ?_⟩
  · simp [f_open, f_read, hopen, WAV_HEADER_SIZE, List.length_take, hfull]
  · simp only [le32]
    rw [hg 4 (by decide), hg 5 (by decide), hg 6 (by decide), hg 7 (by decide),
      hm 4, hm 5, hm 6, hm 7]
  · simp only [le32]
    rw [hg 24 (by decide), hg 25 (by decide), hg 26 (by decide), hg 27 (by decide),
      hm 24, hm 25, hm 26, hm 27]

/-- Witness of C11: a header without any chunk tag, FileSize 10000 and SampleRate 44100. -/
theorem openFile_reads_header_fields_witness :
    Disk.single "Song1.wav" (untaggedHeader 10000 44100) "Song1.wav"
        = some (untaggedHeader 10000 44100)
    ∧ 44 ≤ (untaggedHeader 10000 44100).length
    ∧ (∀ b ∈ untaggedHeader 10000 44100, b < 256)
    ∧ (wavPlayer_openFile (Disk.single "Song1.wav" (untaggedHeader 10000 44100))
          (fun _ => 255) "Song1.wav" Player.boot).1 = true
    ∧ (wavPlayer_openFile (Disk.single "Song1.wav" (untaggedHeader 10000 44100))
          (fun _ => 255) "Song1.wav" Player.boot).2.fileLength = 10000
    ∧ (wavPlayer_openFile (Disk.single "Song1.wav" (untaggedHeader 10000 44100))
          (fun _ => 255) "Song1.wav" Player.boot).2.samplingFreq = 44100 :=
  have h1 : Disk.single "Song1.wav" (untaggedHeader 10000 44100) "Song1.wav"
        = some (untaggedHeader 10000 44100) := by simp [Disk.single]
  have h2 : 44 ≤ (untaggedHeader 10000 44100).length := by decide
  have h3 : ∀ b ∈ untaggedHeader 10000 44100, b < 256 := by decide
  have h := openFile_reads_header_fields _ (fun _ => 255) "Song1.wav" Player.boot _ h1 h2 h3
  ⟨h1, h2, h3, h.1, h.2.2.1, h.2.2.2⟩

/-- Claim C12, the code at a failing input: a canonical file of 48 bytes (header field
FileSize = 40) is opened and played. The first read returns 48 bytes, more than the stored
length 40, and the 32-bit subtraction leaves the remaining-byte counter at 4294967288, above
the stored length; the next refill leaves it there with the state machine idle. -/
theorem play_remaining_underflow :
    (wavPlayer_openFile (Disk.single "Song1.wav" (riffFile 44100 [1, 2, 3, 4]))
        (fun _ => 0) "Song1.wav" Player.boot).1 = true
    ∧ (riffFile 44100 [1, 2, 3, 4]).length = 48
    ∧ (wavPlayer_openFile (Disk.single "Song1.wav" (riffFile 44100 [1, 2, 3, 4]))
        (fun _ => 0) "Song1.wav" Player.boot).2.fileLength = 40
    ∧ (wavPlayer_play true
        (wavPlayer_openFile (Disk.single "Song1.wav" (riffFile 44100 [1, 2, 3, 4]))
          (fun _ => 0) "Song1.wav" Player.boot).2).player_bytes_read = 48
    ∧ (wavPlayer_play true
        (wavPlayer_openFile (Disk.single "Song1.wav" (riffFile 44100 [1, 2, 3, 4]))
          (fun _ => 0) "Song1.wav" Player.boot).2).audioRemainSize = 4294967288
    ∧ (serve [Notification.txCplt] (wavPlayer_play true
        (wavPlayer_openFile (Disk.single "Song1.wav" (riffFile 44100 [1, 2, 3, 4]))
          (fun _ => 0) "Song1.wav" Player.boot).2)).audioRemainSize = 4294967288
    ∧ (serve [Notification.txCplt] (wavPlayer_play true
        (wavPlayer_openFile (Disk.single "Song1.wav" (riffFile 44100 [1, 2, 3, 4]))
          (fun _ => 0) "Song1.wav" Player.boot).2)).playerControlSM = PLAYER_CONTROL_Idle := by
  have ho := openFile_ok _ (fun _ => 0) "Song1.wav" Player.boot _
    (single_hit "Song1.wav" (riffFile 44100 [1, 2, 3, 4]))
  obtain ⟨-, -, p3, p4, p5⟩ := play_open true
    (wavPlayer_openFile (Disk.single "Song1.wav" (riffFile 44100 [1, 2, 3, 4]))
        (fun _ => 0) "Song1.wav" Player.boot).2
    ⟨riffFile 44100 [1, 2, 3, 4], (List.take 44 (riffFile 44100 [1, 2, 3, 4])).length⟩
    (by rw [ho])
  have hL : (wavPlayer_openFile (Disk.single "Song1.wav" (riffFile 44100 [1, 2, 3, 4]))
        (fun _ => 0) "Song1.wav" Player.boot).2.fileLength = 40 := by
    rw [ho]; decide
  rw [hL] at p4
  refine ⟨by rw [ho], by decide, hL, ?_, ?_, ?_, ?_⟩
  · rw [p5]; decide
  · rw [p4]; decide
  · rw [ho]; decide
  · rw [ho]; decide

/-- Counterexample to C13 as stated: for a canonical file whose payload (from file offset 44)
is 200, 201, 202, 203, the first fill copies the whole file from offset 0, not the payload:
buffer offset 0 holds the header byte 82 and the first payload byte sits at buffer
offset 44. -/
theorem play_copies_header_counterexample :
    (riffFile 44100 [200, 201, 202, 203]).drop 44 = [200, 201, 202, 203]
    ∧ (wavPlayer_play true (wavPlayer_openFile
        (Disk.single "Song1.wav" (riffFile 44100 [200, 201, 202, 203]))
        (fun _ => 0) "Song1.wav" Player.boot).2).fills
        = [Fill.mk 0 4096 (riffFile 44100 [200, 201, 202, 203])]
    ∧ riffFile 44100 [200, 201, 202, 203] ≠ [200, 201, 202, 203]
    ∧ (wavPlayer_play true (wavPlayer_openFile
        (Disk.single "Song1.wav" (riffFile 44100 [200, 201, 202, 203]))
        (fun _ => 0) "Song1.wav" Player.boot).2).audioBuffer 0 = 82
    ∧ (wavPlayer_play true (wavPlayer_openFile
        (Disk.single "Song1.wav" (riffFile 44100 [200, 201, 202, 203]))
        (fun _ => 0) "Song1.wav" Player.boot).2).audioBuffer 44 = 200 := by
  obtain ⟨f1, b1⟩ := play_after_open
    (Disk.single "Song1.wav" (riffFile 44100 [200, 201, 202, 203]))
    (fun _ => 0) "Song1.wav" Player.boot _ true (single_hit _ _)
  rw [f1, b1]
  refine ⟨by decide, by decide, by decide, by decide, by decide⟩

/-- Claim C13, amended: wavPlayer_play seeks to file offset 0 before the first fill. For a file
made of a 44-byte header followed by payload bytes, the first fill copies the header and
then the first 4052 payload bytes: buffer offsets 0..43 hold the header and the payload
starts at buffer offset 44. -/
theorem play_fills_from_offset_zero (disk : Disk) (wavHeader0 : Nat → Nat)
    (filePath : String) (s : Player) (header payload : List Nat) (initOk : Bool)
    (hopen : disk filePath = some (header ++ payload)) (hh : header.length = 44) :
    (wavPlayer_play initOk (wavPlayer_openFile disk wavHeader0 filePath s).2).fills
        = s.fills ++ [Fill.mk 0 4096 (header ++ payload.take 4052)]
    ∧ (∀ i, i < 44 →
        (wavPlayer_play initOk (wavPlayer_openFile disk wavHeader0 filePath s).2).audioBuffer i
          = header.getD i 0)
    ∧ (∀ i, i < min 4052 payload.length →
        (wavPlayer_play initOk
          (wavPlayer_openFile disk wavHeader0 filePath s).2).audioBuffer (44 + i)
          = payload.getD i 0) := by
  obtain ⟨f1, b1⟩ := play_after_open disk wavHeader0 filePath s _ initOk hopen
  have ht : (header ++ payload).take 4096 = header ++ payload.take 4052 := by
    rw [List.take_append_eq_append_take, hh, List.take_of_length_le (by omega)]
  rw [ht] at f1 b1
  refine ⟨f1, ?_, ?_⟩
  · intro i hi
    rw [b1, store_getD _ _ _ (by simp; omega)]
    simp only [List.getD_eq_getElem?_getD]
    rw [List.getElem?_append_left (by omega)]
  · intro i hi
    rw [b1, store_getD _ _ _ (by simp [List.length_take]; omega)]
    simp only [List.getD_eq_getElem?_getD]
    rw [List.getElem?_append_right (by omega), hh, List.getElem?_take]
    simp only [Nat.add_sub_cancel_left]
    rw [if_pos (by omega)]

/-- Witness of C13 amended: a canonical header followed by four payload bytes. -/
theorem play_fills_from_offset_zero_witness :
    Disk.single "Song1.wav" (List.take 44 (riffFile 44100 [200, 201, 202, 203])
        ++ [200, 201, 202, 203]) "Song1.wav"
      = some (List.take 44 (riffFile 44100 [200, 201, 202, 203]) ++ [200, 201, 202, 203])
    ∧ (List.take 44 (riffFile 44100 [200, 201, 202, 203])).length = 44
    ∧ (wavPlayer_play true (wavPlayer_openFile
        (Disk.single "Song1.wav" (List.take 44 (riffFile 44100 [200, 201, 202, 203])
          ++ [200, 201, 202, 203])) (fun _ => 0) "Song1.wav" Player.boot).2).audioBuffer 0
        = (List.take 44 (riffFile 44100 [200, 201, 202, 203])).getD 0 0 :=
  have h := play_fills_from_offset_zero
    (Disk.single "Song1.wav" (List.take 44 (riffFile 44100 [200, 201, 202, 203])
        ++ [200, 201, 202, 203])) (fun _ => 0) "Song1.wav" Player.boot
    (List.take 44 (riffFile 44100 [200, 201, 202, 203])) [200, 201, 202, 203] true
    (single_hit _ _) (by decide)
  ⟨single_hit _ _, by decide, h.2.1 0 (by decide)⟩

/-- Claim C14, the code at a failing input: a file with sample rate 44100 is opened and played
while HAL_I2S_Init fails. audio_adjust_freq returns false, yet wavPlayer_play goes on: the
transfer, stopped before, is running afterwards and the codec has received the start
sequence (power control 1 reads 0x9E). -/
theorem play_ignores_reconfigure_failure :
    (wavPlayer_openFile (Disk.single "Song1.wav" (riffFile 44100 [1, 2, 3, 4]))
        (fun _ => 0) "Song1.wav" Player.boot).2.samplingFreq = 44100
    ∧ (audio_adjust_freq 44100 false
        (wavPlayer_openFile (Disk.single "Song1.wav" (riffFile 44100 [1, 2, 3, 4]))
          (fun _ => 0) "Song1.wav" Player.boot).2).1 = false
    ∧ (wavPlayer_openFile (Disk.single "Song1.wav" (riffFile 44100 [1, 2, 3, 4]))
        (fun _ => 0) "Song1.wav" Player.boot).2.dma = DmaState.stopped
    ∧ (wavPlayer_play false
        (wavPlayer_openFile (Disk.single "Song1.wav" (riffFile 44100 [1, 2, 3, 4]))
          (fun _ => 0) "Song1.wav" Player.boot).2).dma = DmaState.running
    ∧ (wavPlayer_play false
        (wavPlayer_openFile (Disk.single "Song1.wav" (riffFile 44100 [1, 2, 3, 4]))
          (fun _ => 0) "Song1.wav" Player.boot).2).codec = CS43_start []
    ∧ CS43_read_register POWER_CONTROL1
        (wavPlayer_play false
          (wavPlayer_openFile (Disk.single "Song1.wav" (riffFile 44100 [1, 2, 3, 4]))
            (fun _ => 0) "Song1.wav" Player.boot).2).codec = 0x9E := by
  have ho := openFile_ok _ (fun _ => 0) "Song1.wav" Player.boot _
    (single_hit "Song1.wav" (riffFile 44100 [1, 2, 3, 4]))
  obtain ⟨hc, -, -, -⟩ := play_any false
    (wavPlayer_openFile (Disk.single "Song1.wav" (riffFile 44100 [1, 2, 3, 4]))
      (fun _ => 0) "Song1.wav" Player.boot).2
  obtain ⟨hd, -, -⟩ := play_dma false
    (wavPlayer_openFile (Disk.single "Song1.wav" (riffFile 44100 [1, 2, 3, 4]))
      (fun _ => 0) "Song1.wav" Player.boot).2
  have hc0 : (wavPlayer_openFile (Disk.single "Song1.wav" (riffFile 44100 [1, 2, 3, 4]))
      (fun _ => 0) "Song1.wav" Player.boot).2.codec = [] := by rw [ho]; rfl
  rw [hc0] at hc
  refine ⟨by rw [ho]; decide, rfl, by rw [ho]; rfl, hd, hc, ?_⟩
  rw [hc]
  exact read_after_start _

/-- Counterexample to C15 as stated: a 44-byte file whose header gives FileSize 1000. Directly
after the successful open the counter plus the bytes copied is 0, not 1000; after the play
and one refill (which reads nothing and sets the counter to 0) it is 44, not 1000. -/
theorem remaining_plus_copied_counterexample :
    (wavPlayer_openFile (Disk.single "Song1.wav" (untaggedHeader 1000 44100))
        (fun _ => 0) "Song1.wav" Player.boot).1 = true
    ∧ (wavPlayer_openFile (Disk.single "Song1.wav" (untaggedHeader 1000 44100))
        (fun _ => 0) "Song1.wav" Player.boot).2.fileLength = 1000
    ∧ (wavPlayer_openFile (Disk.single "Song1.wav" (untaggedHeader 1000 44100))
          (fun _ => 0) "Song1.wav" Player.boot).2.audioRemainSize
        + bytesCopied (wavPlayer_openFile (Disk.single "Song1.wav" (untaggedHeader 1000 44100))
          (fun _ => 0) "Song1.wav" Player.boot).2 = 0
    ∧ (serve [Notification.txCplt] (wavPlayer_play true
          (wavPlayer_openFile (Disk.single "Song1.wav" (untaggedHeader 1000 44100))
            (fun _ => 0) "Song1.wav" Player.boot).2)).audioRemainSize
        + bytesCopied (serve [Notification.txCplt] (wavPlayer_play true
          (wavPlayer_openFile (Disk.single "Song1.wav" (untaggedHeader 1000 44100))
            (fun _ => 0) "Song1.wav" Player.boot).2)) = 44 := by
  have ho := openFile_ok _ (fun _ => 0) "Song1.wav" Player.boot _
    (single_hit "Song1.wav" (untaggedHeader 1000 44100))
  rw [ho]
  refine ⟨rfl, by decide, by decide, by decide⟩

/-- Claim C15, amended: with 32-bit values, the remaining-byte counter plus the bytes copied
equals the stored payload length (plus what had been copied before) after wavPlayer_play when
the first read returned no more bytes than the stored payload length, and still does after
every run of answered notifications whose last refill ends in PLAYER_CONTROL_Idle. From any
state, a refill that does not end in PLAYER_CONTROL_EndOfFile keeps the counter plus the
bytes copied, and a refill that ends in PLAYER_CONTROL_EndOfFile keeps it exactly when its
read returned as many bytes as the counter held. -/
theorem remaining_plus_copied (s t : Player) (initOk : Bool) (evs : List Notification)
    (ev : Notification)
    (hL : s.fileLength < 4294967296)
    (hfirst : (wavPlayer_play initOk s).player_bytes_read ≤ s.fileLength)
    (ht : t.audioRemainSize < 4294967296) :
    (wavPlayer_play initOk s).audioRemainSize + bytesCopied (wavPlayer_play initOk s)
        = s.fileLength + bytesCopied s
    ∧ (evs ≠ [] →
        (serve evs (wavPlayer_play initOk s)).playerControlSM = PLAYER_CONTROL_Idle →
        (serve evs (wavPlayer_play initOk s)).audioRemainSize
            + bytesCopied (serve evs (wavPlayer_play initOk s))
          = s.fileLength + bytesCopied s)
    ∧ ((wavPlayer_proceed (ev.deliver t)).playerControlSM ≠ PLAYER_CONTROL_EndOfFile →
        (wavPlayer_proceed (ev.deliver t)).audioRemainSize
            + bytesCopied (wavPlayer_proceed (ev.deliver t))
          = t.audioRemainSize + bytesCopied t)
    ∧ ((wavPlayer_proceed (ev.deliver t)).playerControlSM = PLAYER_CONTROL_EndOfFile →
        ((wavPlayer_proceed (ev.deliver t)).audioRemainSize
            + bytesCopied (wavPlayer_proceed (ev.deliver t))
          = t.audioRemainSize + bytesCopied t
        ↔ (wavPlayer_proceed (ev.deliver t)).player_bytes_read = t.audioRemainSize)) := by
  obtain ⟨-, p2, -, -⟩ := play_any initOk s
  obtain ⟨q1, q2⟩ := play_fills_any initOk s
  have hb := bytesCopied_append s (wavPlayer_play initOk s) _ q1
  simp only at hb
  rw [← q2] at hb
  have hplay : (wavPlayer_play initOk s).audioRemainSize
      + bytesCopied (wavPlayer_play initOk s) = s.fileLength + bytesCopied s := by
    rw [p2, hb]
    unfold sub32
    omega
  have h32 : (wavPlayer_play initOk s).audioRemainSize < 4294967296 := by
    rw [p2]
    unfold sub32
    omega
  obtain ⟨hp, hw, hf, -, hr⟩ := proceed_deliver ev t
  obtain ⟨r1, r2, -, -, -, -⟩ := refill_any ev.target (ev.deliver t)
  obtain ⟨s1, s2⟩ := refill_sm ev.target (ev.deliver t)
  have hle := f_read_length_le t.wavFile 2048
  rw [hw] at r1 r2 s2
  rw [hr] at r2 s1
  rw [hf] at s2
  have hbt := bytesCopied_append t (refill ev.target (ev.deliver t)) _ s2
  simp only at hbt
  refine ⟨hplay, ?_, ?_, ?_⟩
  · intro hne hidle
    rw [(serve_idle_sum evs _ h32 hne hidle).2, hplay]
  · intro hsm
    rw [hp] at hsm ⊢
    have hbig : 2048 < t.audioRemainSize := by
      by_contra hc
      rw [s1, if_neg hc] at hsm
      exact hsm rfl
    rw [r2, if_pos hbig, hbt]
    unfold sub32
    omega
  · intro hsm
    rw [hp] at hsm ⊢
    have hsmall : ¬ 2048 < t.audioRemainSize := by
      intro hc
      rw [s1, if_pos hc] at hsm
      exact absurd hsm (by decide)
    rw [r1, r2, if_neg hsmall, hbt]
    omega

/-- Witness of C15 amended: a file of 10000 bytes with the stored length 9992, as for a
canonical file, after the play and two refills. -/
theorem remaining_plus_copied_witness :
    (Player.withTrack (List.replicate 10000 7) 9992).fileLength < 4294967296
    ∧ (wavPlayer_play true (Player.withTrack (List.replicate 10000 7) 9992)).player_bytes_read
        ≤ (Player.withTrack (List.replicate 10000 7) 9992).fileLength
    ∧ (wavPlayer_play true (Player.withTrack (List.replicate 10000 7) 9992)).audioRemainSize
        < 4294967296
    ∧ (serve [Notification.txCplt, Notification.txHalfCplt]
        (wavPlayer_play true
          (Player.withTrack (List.replicate 10000 7) 9992))).playerControlSM
        = PLAYER_CONTROL_Idle
    ∧ (serve [Notification.txCplt, Notification.txHalfCplt]
          (wavPlayer_play true (Player.withTrack (List.replicate 10000 7) 9992))).audioRemainSize
        + bytesCopied (serve [Notification.txCplt, Notification.txHalfCplt]
          (wavPlayer_play true (Player.withTrack (List.replicate 10000 7) 9992)))
        = (Player.withTrack (List.replicate 10000 7) 9992).fileLength
          + bytesCopied (Player.withTrack (List.replicate 10000 7) 9992) := by
  have hlen : (FIL.mk (List.replicate 10000 7) 0).data.length = 10000 :=
    List.length_replicate 10000 7
  obtain ⟨p1, -, -, p4, p5⟩ := play_open true (Player.withTrack (List.replicate 10000 7) 9992)
    (FIL.mk (List.replicate 10000 7) 0) rfl
  rw [hlen] at p1 p4 p5
  have p4' : (wavPlayer_play true
      (Player.withTrack (List.replicate 10000 7) 9992)).audioRemainSize = 5896 := by
    rw [p4]; decide
  have p5' : (wavPlayer_play true
      (Player.withTrack (List.replicate 10000 7) 9992)).player_bytes_read = 4096 := by
    rw [p5]; decide
  have p1' : (wavPlayer_play true (Player.withTrack (List.replicate 10000 7) 9992)).wavFile
      = some ⟨List.replicate 10000 7, 4096⟩ := by rw [p1]; rfl
  obtain ⟨a1, -, a3, -, -⟩ := step_open Notification.txCplt _ _ 4096 p1'
  rw [p4'] at a3
  have a3' : (wavPlayer_proceed (Notification.txCplt.deliver (wavPlayer_play true
      (Player.withTrack (List.replicate 10000 7) 9992)))).audioRemainSize = 3848 := by
    rw [a3, List.length_replicate]; decide
  obtain ⟨-, -, -, b4, -⟩ := step_open Notification.txHalfCplt _ _ _ a1
  rw [a3'] at b4
  have hidle : (serve [Notification.txCplt, Notification.txHalfCplt]
      (wavPlayer_play true
        (Player.withTrack (List.replicate 10000 7) 9992))).playerControlSM
      = PLAYER_CONTROL_Idle := by
    simp only [serve]
    rw [b4]
    rfl
  have hL : (Player.withTrack (List.replicate 10000 7) 9992).fileLength < 4294967296 :=
    show 9992 < 4294967296 by decide
  have hfirst : (wavPlayer_play true
      (Player.withTrack (List.replicate 10000 7) 9992)).player_bytes_read
      ≤ (Player.withTrack (List.replicate 10000 7) 9992).fileLength := by
    rw [p5']
    show 4096 ≤ 9992
    decide
  have ht : (wavPlayer_play true
      (Player.withTrack (List.replicate 10000 7) 9992)).audioRemainSize < 4294967296 := by
    rw [p4']; decide
  exact ⟨hL, hfirst, ht, hidle,
    (remaining_plus_copied (Player.withTrack (List.replicate 10000 7) 9992)
      (wavPlayer_play true (Player.withTrack (List.replicate 10000 7) 9992)) true
      [Notification.txCplt, Notification.txHalfCplt] Notification.txCplt hL hfirst ht).2.1
      (List.cons_ne_nil _ _) hidle⟩

/-- Counterexample to C16 as stated: a track is played and stopped (flag true, counter 94); the
next open succeeds and stores the length 1000, yet the flag is still true and the counter
still 94. -/
theorem openFile_keeps_flag_counterexample :
    is_wavPlayer_finished_Playing
        (wavPlayer_stop (wavPlayer_play true (Player.withTrack [1, 2, 3, 4, 5, 6] 100))) = true
    ∧ (wavPlayer_stop (wavPlayer_play true
        (Player.withTrack [1, 2, 3, 4, 5, 6] 100))).audioRemainSize = 94
    ∧ (wavPlayer_openFile (Disk.single "Song2.wav" (untaggedHeader 1000 44100))
        (fun _ => 0) "Song2.wav"
        (wavPlayer_stop (wavPlayer_play true (Player.withTrack [1, 2, 3, 4, 5, 6] 100)))).1
        = true
    ∧ is_wavPlayer_finished_Playing
        (wavPlayer_openFile (Disk.single "Song2.wav" (untaggedHeader 1000 44100))
          (fun _ => 0) "Song2.wav"
          (wavPlayer_stop (wavPlayer_play true (Player.withTrack [1, 2, 3, 4, 5, 6] 100)))).2
        = true
    ∧ (wavPlayer_openFile (Disk.single "Song2.wav" (untaggedHeader 1000 44100))
          (fun _ => 0) "Song2.wav"
          (wavPlayer_stop (wavPlayer_play true
            (Player.withTrack [1, 2, 3, 4, 5, 6] 100)))).2.audioRemainSize = 94
    ∧ (wavPlayer_openFile (Disk.single "Song2.wav" (untaggedHeader 1000 44100))
          (fun _ => 0) "Song2.wav"
          (wavPlayer_stop (wavPlayer_play true
            (Player.withTrack [1, 2, 3, 4, 5, 6] 100)))).2.fileLength = 1000 := by
  have ho := openFile_ok (Disk.single "Song2.wav" (untaggedHeader 1000 44100))
    (fun _ => 0) "Song2.wav"
    (wavPlayer_stop (wavPlayer_play true (Player.withTrack [1, 2, 3, 4, 5, 6] 100))) _
    (single_hit "Song2.wav" (untaggedHeader 1000 44100))
  rw [ho]
  refine ⟨by decide, by decide, rfl, by decide, by decide, by decide⟩

/-- Claim C16, amended: wavPlayer_openFile leaves the finished flag and the remaining-byte
counter as they were; it is the following wavPlayer_play that clears the flag and sets the
counter anew, to the 32-bit difference of the stored length and the bytes of the first read. -/
theorem openFile_keeps_bookkeeping (disk : Disk) (wavHeader0 : Nat → Nat)
    (filePath : String) (s : Player) (initOk : Bool) :
    is_wavPlayer_finished_Playing (wavPlayer_openFile disk wavHeader0 filePath s).2
        = is_wavPlayer_finished_Playing s
    ∧ (wavPlayer_openFile disk wavHeader0 filePath s).2.audioRemainSize = s.audioRemainSize
    ∧ is_wavPlayer_finished_Playing
        (wavPlayer_play initOk (wavPlayer_openFile disk wavHeader0 filePath s).2) = false
    ∧ (wavPlayer_play initOk (wavPlayer_openFile disk wavHeader0 filePath s).2).audioRemainSize
        = sub32 (wavPlayer_openFile disk wavHeader0 filePath s).2.fileLength
            (wavPlayer_play initOk
              (wavPlayer_openFile disk wavHeader0 filePath s).2).player_bytes_read := by
  obtain ⟨o1, o2, -, -⟩ := openFile_frame disk wavHeader0 filePath s
  obtain ⟨-, p2, -, -⟩ := play_any initOk (wavPlayer_openFile disk wavHeader0 filePath s).2
  obtain ⟨-, d2, -⟩ := play_dma initOk (wavPlayer_openFile disk wavHeader0 filePath s).2
  exact ⟨o1, o2, d2, p2⟩

/-- Claim C17: wavPlayer_pause and wavPlayer_resume leave the remaining-byte counter, the audio
buffer, the state machine, the finished flag, the stored payload length, the file object
with its read pointer and the fill history unchanged, in every state. -/
theorem pause_resume_frame (s : Player) :
    ((wavPlayer_pause s).audioRemainSize = s.audioRemainSize
      ∧ (wavPlayer_pause s).audioBuffer = s.audioBuffer
      ∧ (wavPlayer_pause s).playerControlSM = s.playerControlSM
      ∧ (wavPlayer_pause s).is_song_finished = s.is_song_finished
      ∧ (wavPlayer_pause s).fileLength = s.fileLength
      ∧ (wavPlayer_pause s).wavFile = s.wavFile
      ∧ (wavPlayer_pause s).fills = s.fills)
    ∧ ((wavPlayer_resume s).audioRemainSize = s.audioRemainSize
      ∧ (wavPlayer_resume s).audioBuffer = s.audioBuffer
      ∧ (wavPlayer_resume s).playerControlSM = s.playerControlSM
      ∧ (wavPlayer_resume s).is_song_finished = s.is_song_finished
      ∧ (wavPlayer_resume s).fileLength = s.fileLength
      ∧ (wavPlayer_resume s).wavFile = s.wavFile
      ∧ (wavPlayer_resume s).fills = s.fills) :=
  ⟨⟨rfl, rfl, rfl, rfl, rfl, rfl, rfl⟩, ⟨rfl, rfl, rfl, rfl, rfl, rfl, rfl⟩⟩

/-- Claim C18: in every state, whatever the state machine and the remaining-byte counter hold,
after wavPlayer_stop the transport is stopped, the file is closed and the finished flag is
true, and all three still hold after any number of wavPlayer_proceed calls. -/
theorem stop_is_final (s : Player) (n : Nat) :
    (transportStopped (wavPlayer_stop s) ∧ (wavPlayer_stop s).wavFile = none
      ∧ is_wavPlayer_finished_Playing (wavPlayer_stop s) = true)
    ∧ (transportStopped (Nat.iterate wavPlayer_proceed n (wavPlayer_stop s))
      ∧ (Nat.iterate wavPlayer_proceed n (wavPlayer_stop s)).wavFile = none
      ∧ is_wavPlayer_finished_Playing (Nat.iterate wavPlayer_proceed n (wavPlayer_stop s))
          = true) := by
  obtain ⟨s1, s2, s3, -, -⟩ := stop_effects s
  refine ⟨⟨s1, s2, s3⟩, ?_⟩
  induction n with
  | zero => exact ⟨s1, s2, s3⟩
  | succ k ih =>
    rw [Function.iterate_succ_apply']
    exact stopped_closed_finished_proceed _ ih

/-- Claim C19: openFile, reset, play, stop, pause, resume and setVolume leave the state machine
variable as it is in every state (so they keep PLAYER_CONTROL_Idle and never set it nor
PLAYER_CONTROL_EndOfFile); wavPlayer_proceed in PLAYER_CONTROL_Idle returns the state
unchanged; a completion callback either leaves the variable as it is or sets
PLAYER_CONTROL_HalfBuffer respectively PLAYER_CONTROL_FullBuffer. Only wavPlayer_proceed is
left to set PLAYER_CONTROL_Idle or PLAYER_CONTROL_EndOfFile. -/
theorem state_machine_ownership (s : Player) (disk : Disk) (wavHeader0 : Nat → Nat)
    (filePath : String) (initOk : Bool) (volume : Nat) (inst : SPI_Instance) :
    ((wavPlayer_openFile disk wavHeader0 filePath s).2.playerControlSM = s.playerControlSM
      ∧ (wavPlayer_reset s).playerControlSM = s.playerControlSM
      ∧ (wavPlayer_play initOk s).playerControlSM = s.playerControlSM
      ∧ (wavPlayer_stop s).playerControlSM = s.playerControlSM
      ∧ (wavPlayer_pause s).playerControlSM = s.playerControlSM
      ∧ (wavPlayer_resume s).playerControlSM = s.playerControlSM
      ∧ (wavPlayer_setVolume volume s).playerControlSM = s.playerControlSM)
    ∧ (s.playerControlSM = PLAYER_CONTROL_Idle → wavPlayer_proceed s = s)
    ∧ ((HAL_I2S_TxCpltCallback inst s).playerControlSM = PLAYER_CONTROL_HalfBuffer
        ∨ (HAL_I2S_TxCpltCallback inst s).playerControlSM = s.playerControlSM)
    ∧ ((HAL_I2S_TxHalfCpltCallback inst s).playerControlSM = PLAYER_CONTROL_FullBuffer
        ∨ (HAL_I2S_TxHalfCpltCallback inst s).playerControlSM = s.playerControlSM) := by
  refine ⟨⟨(openFile_frame disk wavHeader0 filePath s).2.2.1, rfl, (play_dma initOk s).2.2,
    rfl, rfl, rfl, rfl⟩, proceed_Idle s, ?_, ?_⟩
  · unfold HAL_I2S_TxCpltCallback
    split_ifs
    · exact Or.inl rfl
    · exact Or.inr rfl
  · unfold HAL_I2S_TxHalfCpltCallback
    split_ifs
    · exact Or.inl rfl
    · exact Or.inr rfl

/-- Counterexample to C20 as stated: the stored length is 6096 and the file holds 4196 bytes.
After the play the counter is 2000; the refill reads n = 100 bytes and sets the counter to
0, not to max(0, 2000 - 100) = 1900. -/
theorem refill_clamps_counterexample :
    (wavPlayer_play true (Player.withTrack (List.replicate 4196 7) 6096)).audioRemainSize
        = 2000
    ∧ (serve [Notification.txCplt]
        (wavPlayer_play true
          (Player.withTrack (List.replicate 4196 7) 6096))).player_bytes_read = 100
    ∧ (serve [Notification.txCplt]
        (wavPlayer_play true
          (Player.withTrack (List.replicate 4196 7) 6096))).audioRemainSize = 0
    ∧ (serve [Notification.txCplt]
        (wavPlayer_play true
          (Player.withTrack (List.replicate 4196 7) 6096))).audioRemainSize
        ≠ max 0 ((wavPlayer_play true
            (Player.withTrack (List.replicate 4196 7) 6096)).audioRemainSize
          - (serve [Notification.txCplt]
            (wavPlayer_play true
              (Player.withTrack (List.replicate 4196 7) 6096))).player_bytes_read) := by
  have hlen : (FIL.mk (List.replicate 4196 7) 0).data.length = 4196 :=
    List.length_replicate 4196 7
  obtain ⟨p1, -, -, p4, -⟩ := play_open true (Player.withTrack (List.replicate 4196 7) 6096)
    (FIL.mk (List.replicate 4196 7) 0) rfl
  rw [hlen] at p1 p4
  have p4' : (wavPlayer_play true
      (Player.withTrack (List.replicate 4196 7) 6096)).audioRemainSize = 2000 := by
    rw [p4]; decide
  have p1' : (wavPlayer_play true (Player.withTrack (List.replicate 4196 7) 6096)).wavFile
      = some ⟨List.replicate 4196 7, 4096⟩ := by rw [p1]; rfl
  obtain ⟨-, a2, a3, -, -⟩ := step_open Notification.txCplt _ _ 4096 p1'
  rw [List.length_replicate] at a2 a3
  rw [p4'] at a3
  simp only [serve]
  rw [a2, a3, p4']
  decide

/-- Claim C20, amended: in a refill (either half) the read returns n <= 2048 bytes; when the
counter r is above 2048 it becomes r - n, which is positive; when r is at or below 2048 it
becomes 0 whatever n is. So the counter after the refill is max(0, r - n) when r > 2048 or
r <= n. -/
theorem refill_counter_rule (t : Player) (ev : Notification)
    (h32 : t.audioRemainSize < 4294967296) :
    (wavPlayer_proceed (ev.deliver t)).player_bytes_read = (f_read t.wavFile 2048).2.length
    ∧ (wavPlayer_proceed (ev.deliver t)).player_bytes_read ≤ 2048
    ∧ (2048 < t.audioRemainSize →
        (wavPlayer_proceed (ev.deliver t)).audioRemainSize
          = t.audioRemainSize - (wavPlayer_proceed (ev.deliver t)).player_bytes_read
        ∧ 0 < (wavPlayer_proceed (ev.deliver t)).audioRemainSize)
    ∧ (t.audioRemainSize ≤ 2048 → (wavPlayer_proceed (ev.deliver t)).audioRemainSize = 0)
    ∧ ((2048 < t.audioRemainSize
          ∨ t.audioRemainSize ≤ (wavPlayer_proceed (ev.deliver t)).player_bytes_read) →
        (wavPlayer_proceed (ev.deliver t)).audioRemainSize
          = max 0 (t.audioRemainSize - (wavPlayer_proceed (ev.deliver t)).player_bytes_read))
    := by
  obtain ⟨hp, hw, -, -, hr⟩ := proceed_deliver ev t
  obtain ⟨r1, r2, -, -, -, -⟩ := refill_any ev.target (ev.deliver t)
  have hle := f_read_length_le t.wavFile 2048
  rw [hw] at r1 r2
  rw [hr] at r2
  rw [hp, r1, r2]
  refine ⟨rfl, hle, ?_, ?_, ?_⟩
  · intro h
    rw [if_pos h]
    unfold sub32
    omega
  · intro h
    rw [if_neg (by omega)]
  · intro h
    unfold sub32
    split_ifs <;> omega

/-- Witness of C20 amended: the first refill of a 10000-byte track. -/
theorem refill_counter_rule_witness :
    (wavPlayer_play true (Player.withTrack (List.replicate 10000 7) 10000)).audioRemainSize
        < 4294967296
    ∧ 2048 < (wavPlayer_play true
        (Player.withTrack (List.replicate 10000 7) 10000)).audioRemainSize
    ∧ (wavPlayer_proceed (Notification.txCplt.deliver
        (wavPlayer_play true (Player.withTrack (List.replicate 10000 7) 10000)))).audioRemainSize
        = (wavPlayer_play true
            (Player.withTrack (List.replicate 10000 7) 10000)).audioRemainSize
          - (wavPlayer_proceed (Notification.txCplt.deliver
              (wavPlayer_play true
                (Player.withTrack (List.replicate 10000 7) 10000)))).player_bytes_read :=
  have hr : (wavPlayer_play true
      (Player.withTrack (List.replicate 10000 7) 10000)).audioRemainSize = 5904 := by
    rw [(play_open true (Player.withTrack (List.replicate 10000 7) 10000)
      (FIL.mk (List.replicate 10000 7) 0) rfl).2.2.2.1]
    show sub32 10000 (min 4096 (List.replicate 10000 7).length) = 5904
    rw [List.length_replicate]
    decide
  have h32 : (wavPlayer_play true
      (Player.withTrack (List.replicate 10000 7) 10000)).audioRemainSize < 4294967296 := by
    rw [hr]; decide
  have hbig : 2048 < (wavPlayer_play true
      (Player.withTrack (List.replicate 10000 7) 10000)).audioRemainSize := by
    rw [hr]; decide
  ⟨h32, hbig,
    ((refill_counter_rule _ Notification.txCplt h32).2.2.1 hbig).1⟩


/-! ## End of the stream, the song index and track changes -/

/-- Claim C21: a refill step of wavPlayer_proceed (a notification answered by a proceed, the
counter being a 32-bit value) ends in PLAYER_CONTROL_EndOfFile exactly when the remaining-byte
counter before it is at or below 2048, and then the counter becomes 0; otherwise it ends in
PLAYER_CONTROL_Idle, the read returned at most 2048 bytes and the counter is still above 0.
Hence after the refill the state is PLAYER_CONTROL_EndOfFile if and only if the counter
is 0. -/
theorem refill_end_of_file_rule (t : Player) (ev : Notification)
    (h32 : t.audioRemainSize < 4294967296) :
    ((wavPlayer_proceed (ev.deliver t)).playerControlSM = PLAYER_CONTROL_EndOfFile
        ↔ t.audioRemainSize ≤ 2048)
    ∧ (t.audioRemainSize ≤ 2048 → (wavPlayer_proceed (ev.deliver t)).audioRemainSize = 0)
    ∧ (2048 < t.audioRemainSize →
        (wavPlayer_proceed (ev.deliver t)).playerControlSM = PLAYER_CONTROL_Idle
        ∧ (wavPlayer_proceed (ev.deliver t)).player_bytes_read ≤ 2048
        ∧ 0 < (wavPlayer_proceed (ev.deliver t)).audioRemainSize)
    ∧ ((wavPlayer_proceed (ev.deliver t)).playerControlSM = PLAYER_CONTROL_EndOfFile
        ↔ (wavPlayer_proceed (ev.deliver t)).audioRemainSize = 0) := by
  obtain ⟨hp, hw, -, -, hr⟩ := proceed_deliver ev t
  obtain ⟨r1, r2, -, -, -, -⟩ := refill_any ev.target (ev.deliver t)
  obtain ⟨s1, -⟩ := refill_sm ev.target (ev.deliver t)
  have hle := f_read_length_le t.wavFile 2048
  rw [hw] at r1 r2
  rw [hr] at r2 s1
  rw [hp, r1, r2, s1]
  by_cases h : t.audioRemainSize > 2048
  · rw [if_pos h, if_pos h]
    have hpos : 0 < sub32 t.audioRemainSize (f_read t.wavFile 2048).2.length := by
      unfold sub32; omega
    refine ⟨?_, ?_, ?_, ?_⟩
    · constructor
      · intro e; exact absurd e (by decide)
      · intro e; omega
    · intro e; omega
    · intro _; exact ⟨rfl, hle, hpos⟩
    · constructor
      · intro e; exact absurd e (by decide)
      · intro e; omega
  · rw [if_neg h, if_neg h]
    refine ⟨?_, ?_, ?_, ?_⟩
    · constructor
      · intro _; omega
      · intro _; rfl
    · intro _; rfl
    · intro e; omega
    · constructor
      · intro _; rfl
      · intro _; rfl

/-- Witness of C21: the first refill of a track with 4996 bytes left to account for. -/
theorem refill_end_of_file_rule_witness :
    (wavPlayer_play true (Player.withTrack [1, 2, 3, 4] 5000)).audioRemainSize < 4294967296
    ∧ 2048 < (wavPlayer_play true (Player.withTrack [1, 2, 3, 4] 5000)).audioRemainSize
    ∧ (wavPlayer_proceed (Notification.txCplt.deliver
        (wavPlayer_play true (Player.withTrack [1, 2, 3, 4] 5000)))).playerControlSM
        = PLAYER_CONTROL_Idle
    ∧ 0 < (wavPlayer_proceed (Notification.txCplt.deliver
        (wavPlayer_play true (Player.withTrack [1, 2, 3, 4] 5000)))).audioRemainSize :=
  have h32 : (wavPlayer_play true (Player.withTrack [1, 2, 3, 4] 5000)).audioRemainSize
      < 4294967296 := by decide
  have hbig : 2048 < (wavPlayer_play true
      (Player.withTrack [1, 2, 3, 4] 5000)).audioRemainSize := by decide
  have h := (refill_end_of_file_rule _ Notification.txCplt h32).2.2.1 hbig
  ⟨h32, hbig, h.1, h.2.2⟩

/-- Claim C22, the code at a failing input: all eleven songs are on the disk and the
application starts at song_idx = 1. After nine tracks played to their end the index is 10,
the last entry of the table; after the tenth the guard song_idx < NUM_SONGS still holds, the
index becomes 11 = NUM_SONGS, and the next step of main subscripts songs outside the table.
Ten presses of the next button (EXT_PB3) take the index to 11 the same way. -/
theorem song_index_leaves_table :
    songs.length = NUM_SONGS
    ∧ songs.get? 10 = some "Song11.wav"
    ∧ songs.get? NUM_SONGS = none
    ∧ (runApp Env.album (List.replicate 9 oneTrack).flatten App.boot).map
        (fun a => (a.song_idx, a.loc)) = some (10, MainLoc.startSong)
    ∧ (runApp Env.album (List.replicate 10 oneTrack).flatten App.boot).map
        (fun a => (a.song_idx, a.loc)) = some (11, MainLoc.startSong)
    ∧ (runApp Env.album ((List.replicate 10 oneTrack).flatten ++ [Event.main false])
        App.boot).isNone = true
    ∧ (runApp Env.album (List.replicate 10 (Event.exti GPIO_Pin.EXT_PB3)) App.boot).map
        (fun a => (a.song_idx, a.song_mov)) = some (11, song_mov_t.NEXT_SONG)
    ∧ (runApp Env.album (List.replicate 10 (Event.exti GPIO_Pin.EXT_PB3)
        ++ [Event.main false]) App.boot).isNone = true := by
  refine ⟨by decide, by decide, by decide, by decide, by decide, by decide, by decide,
    by decide⟩

/-- Claim C23: in every state whose remaining-byte counter is 0, a completion notification of
either kind followed by wavPlayer_proceed leaves the state machine in
PLAYER_CONTROL_EndOfFile and the counter at 0, whatever the file object holds; the next
proceed then performs the teardown (transport stopped, file closed, finished flag set,
state machine idle). -/
theorem end_of_stream_survives_notification (t : Player) (ev : Notification)
    (h : t.audioRemainSize = 0) :
    (wavPlayer_proceed (ev.deliver t)).playerControlSM = PLAYER_CONTROL_EndOfFile
    ∧ (wavPlayer_proceed (ev.deliver t)).audioRemainSize = 0
    ∧ transportStopped (wavPlayer_proceed (wavPlayer_proceed (ev.deliver t)))
    ∧ (wavPlayer_proceed (wavPlayer_proceed (ev.deliver t))).wavFile = none
    ∧ is_wavPlayer_finished_Playing (wavPlayer_proceed (wavPlayer_proceed (ev.deliver t)))
        = true
    ∧ (wavPlayer_proceed (wavPlayer_proceed (ev.deliver t))).playerControlSM
        = PLAYER_CONTROL_Idle := by
  obtain ⟨hp, -, -, -, hr⟩ := proceed_deliver ev t
  obtain ⟨-, r2, -, -, -, -⟩ := refill_any ev.target (ev.deliver t)
  obtain ⟨s1, -⟩ := refill_sm ev.target (ev.deliver t)
  rw [hr, h] at r2 s1
  have hsm : (wavPlayer_proceed (ev.deliver t)).playerControlSM = PLAYER_CONTROL_EndOfFile := by
    rw [hp, s1]; rfl
  have hz : (wavPlayer_proceed (ev.deliver t)).audioRemainSize = 0 := by
    rw [hp, r2]; rfl
  obtain ⟨t1, t2, t3, t4⟩ := teardown_effects _ hsm
  exact ⟨hsm, hz, t1, t2, t3, t4⟩

/-- Witness of C23: a 4-byte track after its first refill, then one more notification. -/
theorem end_of_stream_survives_notification_witness :
    (wavPlayer_proceed (Notification.txCplt.deliver
        (wavPlayer_play true (Player.withTrack [1, 2, 3, 4] 4)))).audioRemainSize = 0
    ∧ (wavPlayer_proceed (Notification.txHalfCplt.deliver
        (wavPlayer_proceed (Notification.txCplt.deliver
          (wavPlayer_play true (Player.withTrack [1, 2, 3, 4] 4)))))).playerControlSM
        = PLAYER_CONTROL_EndOfFile
    ∧ is_wavPlayer_finished_Playing (wavPlayer_proceed
        (wavPlayer_proceed (Notification.txHalfCplt.deliver
          (wavPlayer_proceed (Notification.txCplt.deliver
            (wavPlayer_play true (Player.withTrack [1, 2, 3, 4] 4))))))) = true :=
  have h0 : (wavPlayer_proceed (Notification.txCplt.deliver
      (wavPlayer_play true (Player.withTrack [1, 2, 3, 4] 4)))).audioRemainSize = 0 := by
    decide
  have h := end_of_stream_survives_notification _ Notification.txHalfCplt h0
  ⟨h0, h.1, h.2.2.2.2.1⟩

/-- Claim C24: wavPlayer_stop, wavPlayer_reset, wavPlayer_openFile and wavPlayer_play leave the
state machine variable unchanged. So when it holds PLAYER_CONTROL_EndOfFile and stop,
openFile and play are called in that order, it still does after play, with the new transfer
running; the first wavPlayer_proceed then stops the transport, closes the file and sets the
finished flag, without any read and without touching the buffer. -/
theorem pending_request_survives_track_change (s : Player) (disk : Disk)
    (wavHeader0 : Nat → Nat) (filePath : String) (initOk : Bool) :
    ((wavPlayer_stop s).playerControlSM = s.playerControlSM
      ∧ (wavPlayer_reset s).playerControlSM = s.playerControlSM
      ∧ (wavPlayer_openFile disk wavHeader0 filePath s).2.playerControlSM = s.playerControlSM
      ∧ (wavPlayer_play initOk s).playerControlSM = s.playerControlSM)
    ∧ (s.playerControlSM = PLAYER_CONTROL_EndOfFile →
      (wavPlayer_play initOk
          (wavPlayer_openFile disk wavHeader0 filePath (wavPlayer_stop s)).2).playerControlSM
          = PLAYER_CONTROL_EndOfFile
      ∧ (wavPlayer_play initOk
          (wavPlayer_openFile disk wavHeader0 filePath (wavPlayer_stop s)).2).dma
          = DmaState.running
      ∧ transportStopped (wavPlayer_proceed (wavPlayer_play initOk
          (wavPlayer_openFile disk wavHeader0 filePath (wavPlayer_stop s)).2))
      ∧ (wavPlayer_proceed (wavPlayer_play initOk
          (wavPlayer_openFile disk wavHeader0 filePath (wavPlayer_stop s)).2)).wavFile = none
      ∧ is_wavPlayer_finished_Playing (wavPlayer_proceed (wavPlayer_play initOk
          (wavPlayer_openFile disk wavHeader0 filePath (wavPlayer_stop s)).2)) = true
      ∧ (wavPlayer_proceed (wavPlayer_play initOk
          (wavPlayer_openFile disk wavHeader0 filePath (wavPlayer_stop s)).2)).fills
          = (wavPlayer_play initOk
              (wavPlayer_openFile disk wavHeader0 filePath (wavPlayer_stop s)).2).fills
      ∧ (wavPlayer_proceed (wavPlayer_play initOk
          (wavPlayer_openFile disk wavHeader0 filePath (wavPlayer_stop s)).2)).audioBuffer
          = (wavPlayer_play initOk
              (wavPlayer_openFile disk wavHeader0 filePath (wavPlayer_stop s)).2).audioBuffer)
    := by
  refine ⟨⟨rfl, rfl, (openFile_frame disk wavHeader0 filePath s).2.2.1,
    (play_dma initOk s).2.2⟩, ?_⟩
  intro h
  have hsm : (wavPlayer_play initOk
      (wavPlayer_openFile disk wavHeader0 filePath (wavPlayer_stop s)).2).playerControlSM
      = PLAYER_CONTROL_EndOfFile := by
    rw [(play_dma initOk _).2.2, (openFile_frame disk wavHeader0 filePath _).2.2.1,
      (stop_effects s).2.2.2.1, h]
  obtain ⟨t1, t2, t3, -⟩ := teardown_effects _ hsm
  refine ⟨hsm, (play_dma initOk _).1, t1, t2, t3, ?_, ?_⟩
  · rw [proceed_EndOfFile _ hsm]
  · rw [proceed_EndOfFile _ hsm]

/-- Witness of C24: a track left in PLAYER_CONTROL_EndOfFile, then a change to Song2.wav. -/
theorem pending_request_survives_track_change_witness :
    ({ Player.withTrack [1, 2, 3, 4] 4 with
        playerControlSM := PLAYER_CONTROL_EndOfFile } : Player).playerControlSM
        = PLAYER_CONTROL_EndOfFile
    ∧ (wavPlayer_openFile (Disk.single "Song2.wav" (untaggedHeader 10000 44100))
        (fun _ => 0) "Song2.wav"
        (wavPlayer_stop { Player.withTrack [1, 2, 3, 4] 4 with
          playerControlSM := PLAYER_CONTROL_EndOfFile })).1 = true
    ∧ is_wavPlayer_finished_Playing (wavPlayer_proceed (wavPlayer_play true
        (wavPlayer_openFile (Disk.single "Song2.wav" (untaggedHeader 10000 44100))
          (fun _ => 0) "Song2.wav"
          (wavPlayer_stop { Player.withTrack [1, 2, 3, 4] 4 with
            playerControlSM := PLAYER_CONTROL_EndOfFile })).2)) = true :=
  have h := (pending_request_survives_track_change
    { Player.withTrack [1, 2, 3, 4] 4 with playerControlSM := PLAYER_CONTROL_EndOfFile }
    (Disk.single "Song2.wav" (untaggedHeader 10000 44100)) (fun _ => 0) "Song2.wav"
    true).2 rfl
  ⟨rfl, by rw [openFile_ok _ _ _ _ _ (single_hit _ _)], h.2.2.2.2.1⟩

end WavPlayer
